import Mathlib

/-
  Verification development for the request-authorization subsystem of the
  pycommon repository (src/pycommon/authz.py, src/pycommon/api_utils.py,
  src/pycommon/const.py, src/pycommon/exceptions.py).

  The Python code is shallowly embedded: JSON-like Python values become the
  inductive JValue, Python dictionaries become association lists, raising
  becomes the Except monad, and each external collaborator (DynamoDB tables,
  the JWKS endpoint, the jose JWT decoder, the jsonschema validator, the
  json parser, the system clock and the random generator) becomes an input
  threaded through an environment structure.  Machine-word arithmetic in the
  SHAKE-256 model is done on Nat with explicit reduction modulo 2 ^ 64.
-/

set_option autoImplicit false

namespace Authz

/-- A Python value as it occurs in the authz data flow: JSON values plus the
Python None (modelled as null).  Dictionaries are association lists with the
first binding of a key authoritative (Python dicts hold each key once). -/
inductive JValue where
  | null
  | bool (b : Bool)
  | num (q : Rat)
  | str (s : String)
  | arr (xs : List JValue)
  | obj (fields : List (String × JValue))
deriving Repr, BEq

/-- A Python dictionary with string keys. -/
abbrev PyDict := List (String × JValue)

/-- The exceptions that the embedded code can raise.  The http constructor
covers the HTTPException hierarchy of src/pycommon/exceptions.py
(HTTPUnauthorized is http 401, HTTPBadRequest is http 400); the other
constructors cover ClaimException, LookupError, PermissionError,
UnknownApiUserException, jsonschema.ValidationError and the Python builtin
errors that the code can hit. -/
inductive Exc where
  | http (statusCode : Nat) (message : String)
  | claim (message : String)
  | lookup (message : String)
  | permission (message : String)
  | unknownApiUser (message : String)
  | validation (message : String)
  | keyError (key : String)
  | typeError (message : String)
  | valueError (message : String)
  | nameError (message : String)
  | attributeError (message : String)
deriving Repr, BEq, DecidableEq

/-- Python truthiness: None, False, 0, the empty string, the empty list and
the empty dict are falsy, everything else is truthy. -/
def pyTruthy : JValue → Bool
  | .null => false
  | .bool b => b
  | .num q => q != 0
  | .str s => s ≠ ""
  | .arr xs => !xs.isEmpty
  | .obj fields => !fields.isEmpty

/-- The numeric value of a Python value when Python treats it as a number
(bool is a subtype of int in Python). -/
def pyNumVal : JValue → Option Rat
  | .bool b => some (if b then 1 else 0)
  | .num q => some q
  | _ => none

/-- Whether a value is the Python None. -/
def isNull : JValue → Bool
  | .null => true
  | _ => false

/-- Whether a value is the empty Python dict. -/
def isEmptyDict : JValue → Bool
  | .obj [] => true
  | _ => false

mutual

/-- Structural equality of values.  (Python dict equality ignores member
order; the embedded code only ever compares atoms, so the order-sensitive
fallback is never exercised on dicts.) -/
def jvalEq : JValue → JValue → Bool
  | .null, .null => true
  | .bool a, .bool b => a == b
  | .num a, .num b => a == b
  | .str a, .str b => a == b
  | .arr a, .arr b => jvalEqList a b
  | .obj a, .obj b => jvalEqFields a b
  | _, _ => false

/-- Elementwise equality of value lists. -/
def jvalEqList : List JValue → List JValue → Bool
  | [], [] => true
  | a :: ar, b :: br => jvalEq a b && jvalEqList ar br
  | _, _ => false

/-- Memberwise equality of dict entries. -/
def jvalEqFields : List (String × JValue) → List (String × JValue) → Bool
  | [], [] => true
  | a :: ar, b :: br => a.1 == b.1 && jvalEq a.2 b.2 && jvalEqFields ar br
  | _, _ => false

end

/-- Python equality as the embedded code exercises it: numbers and booleans
compare by numeric value, everything else structurally. -/
def pyEq (a b : JValue) : Bool :=
  match pyNumVal a, pyNumVal b with
  | some x, some y => x == y
  | _, _ => jvalEq a b

/-- First binding of a key in a dictionary. -/
def dictGet (d : PyDict) (k : String) : Option JValue :=
  (d.find? (fun kv => kv.1 == k)).map (fun kv => kv.2)

/-- Python d.get(k, default). -/
def pyGetD (d : PyDict) (k : String) (dflt : JValue) : JValue :=
  (dictGet d k).getD dflt

/-- Python d.get(k): a missing key and a stored None both give None. -/
def pyGet (d : PyDict) (k : String) : JValue :=
  pyGetD d k .null

/-- Python d[k]: raises KeyError when the key is absent. -/
def pyIndex (d : PyDict) (k : String) : Except Exc JValue :=
  match dictGet d k with
  | some v => .ok v
  | none => .error (.keyError k)

/-- Python v[k] on an arbitrary value: indexing a dict looks the key up and
indexing anything else with a string raises TypeError. -/
def pyIndexV (v : JValue) (k : String) : Except Exc JValue :=
  match v with
  | .obj fields => pyIndex fields k
  | _ => .error (.typeError "value is not subscriptable with a string key")

/-- Python d[k] = v: replaces the binding in place, otherwise appends. -/
def dictSet (d : PyDict) (k : String) (v : JValue) : PyDict :=
  match d with
  | [] => [(k, v)]
  | kv :: rest => if kv.1 == k then (k, v) :: rest else kv :: dictSet rest k v

/-- Python key-membership test on a dict. -/
def hasKey (d : PyDict) (k : String) : Bool :=
  (dictGet d k).isSome

/-- Python v[k] = x on an arbitrary value: assignment works on a dict and
raises TypeError on anything else. -/
def pySetItem (v : JValue) (k : String) (x : JValue) : Except Exc JValue :=
  match v with
  | .obj fields => .ok (.obj (dictSet fields k x))
  | _ => .error (.typeError "value does not support item assignment")

/-! Character-list implementations of the string operations the source
uses, so that concrete instances reduce inside the kernel.  Lowercasing is
ASCII, which covers every string this code lowercases (header names, the
Bearer scheme, rate periods, the IDP prefix). -/

/-- Python str.lower(). -/
def strLower (s : String) : String :=
  String.mk (s.toList.map Char.toLower)

/-- Python str.startswith(p). -/
def strStartsWith (s p : String) : Bool :=
  p.toList.isPrefixOf s.toList

/-- The Python slice s[:n]. -/
def strTake (s : String) (n : Nat) : String :=
  String.mk (s.toList.take n)

/-- The Python slice s[n:]. -/
def strDrop (s : String) (n : Nat) : String :=
  String.mk (s.toList.drop n)

/-- Python str.strip(). -/
def strTrim (s : String) : String :=
  String.mk (((s.toList.dropWhile Char.isWhitespace).reverse.dropWhile
    Char.isWhitespace).reverse)

/-- Splitting on one separator character, keeping empty pieces, as Python
str.split(sep) does for the one-character separators used here. -/
def splitOnCharAux (sep : Char) : List Char → List Char → List String
  | [], acc => [String.mk acc.reverse]
  | c :: rest, acc =>
    if c = sep then String.mk acc.reverse :: splitOnCharAux sep rest []
    else splitOnCharAux sep rest (c :: acc)

/-- Python str.split(sep) for a one-character separator. -/
def strSplitOnChar (s : String) (sep : Char) : List String :=
  splitOnCharAux sep s.toList []

/-- Splitting on whitespace, keeping the empty pieces between runs. -/
def splitWhitespaceAux : List Char → List Char → List String
  | [], acc => [String.mk acc.reverse]
  | c :: rest, acc =>
    if c.isWhitespace then
      String.mk acc.reverse :: splitWhitespaceAux rest []
    else splitWhitespaceAux rest (c :: acc)

/-- Python str.split() with no separator: split on whitespace and drop the
empty pieces. -/
def pySplit (s : String) : List String :=
  (splitWhitespaceAux s.toList []).filter (fun piece => piece ≠ "")

/-! ### SHAKE-256, the hash behind hashlib.shake_256 used by TokenV1

Lanes are 64-bit words represented as Nat reduced modulo 2 ^ 64; the state is
the flat list of the 25 lanes indexed x + 5 * y. -/

/-- 2 ^ 64, the lane modulus. -/
def M64 : Nat := 2 ^ 64

/-- Rotate a 64-bit lane left by n bits (0 ≤ n < 64). -/
def rotl64 (x n : Nat) : Nat :=
  ((x <<< n) % M64) ||| (x >>> (64 - n))

/-- Lane (x, y) of a Keccak state. -/
def lane (a : List Nat) (x y : Nat) : Nat :=
  a.getD (x + 5 * y) 0

/-- The theta step of Keccak-f. -/
def keccakTheta (a : List Nat) : List Nat :=
  let c := fun x => lane a x 0 ^^^ lane a x 1 ^^^ lane a x 2 ^^^ lane a x 3 ^^^ lane a x 4
  let d := fun x => c ((x + 4) % 5) ^^^ rotl64 (c ((x + 1) % 5)) 1
  (List.range 25).map (fun i => a.getD i 0 ^^^ d (i % 5))

/-- The rho-offset walk of FIPS 202: starting from lane (1, 0), step t
assigns offset (t + 1)(t + 2)/2 mod 64 and moves to (y, 2x + 3y mod 5).
The result pairs each visited flat index x + 5y with its offset. -/
def rhoAssignments : List (Nat × Nat) :=
  (((List.range 24).foldl
    (fun st t =>
      let x := st.1.1
      let y := st.1.2
      ((y, (2 * x + 3 * y) % 5),
        (x + 5 * y, (t + 1) * (t + 2) / 2 % 64) :: st.2))
    (((1, 0) : Nat × Nat), ([] : List (Nat × Nat))))).2

/-- Rotation offsets of the rho step, indexed x + 5 * y (lane 0 rotates by
zero and is absent from the walk). -/
def rotOffsets : List Nat :=
  (List.range 25).map
    (fun i => (((rhoAssignments.find? (fun p => p.1 == i)).map
      (fun p => p.2)).getD 0))

/-- The combined rho and pi steps: output lane (x, y) is the rotated input
lane (x + 3 * y mod 5, x). -/
def keccakRhoPi (a : List Nat) : List Nat :=
  (List.range 25).map (fun i =>
    let x := i % 5
    let y := i / 5
    let sx := (x + 3 * y) % 5
    let sy := x
    rotl64 (lane a sx sy) (rotOffsets.getD (sx + 5 * sy) 0))

/-- The chi step. -/
def keccakChi (a : List Nat) : List Nat :=
  (List.range 25).map (fun i =>
    let x := i % 5
    let y := i / 5
    lane a x y ^^^ ((lane a ((x + 1) % 5) y ^^^ (M64 - 1)) &&& lane a ((x + 2) % 5) y))

/-- The byte LFSR update of the Keccak round-constant generator
(FIPS 202 section 3.2.5). -/
def rcUpdate (r : Nat) : Nat :=
  ((r <<< 1) ^^^ ((r >>> 7) * 0x71)) % 256

/-- The LFSR state after t updates from the seed 1. -/
def rcState : Nat → Nat
  | 0 => 1
  | t + 1 => rcUpdate (rcState t)

/-- Round constant of round ir: bit rc(j + 7 ir) placed at position
2 ^ j - 1 for j < 7. -/
def keccakRC (ir : Nat) : Nat :=
  (List.range 7).foldl
    (fun acc j => acc + (rcState (j + 7 * ir) % 2) <<< (2 ^ j - 1)) 0

/-- Round constants of Keccak-f[1600]. -/
def keccakRCs : List Nat :=
  (List.range 24).map keccakRC

/-- One round: theta, rho, pi, chi, then iota with the given round constant. -/
def keccakRound (a : List Nat) (rc : Nat) : List Nat :=
  let b := keccakChi (keccakRhoPi (keccakTheta a))
  match b with
  | [] => []
  | l0 :: rest => (l0 ^^^ rc) :: rest

/-- The full Keccak-f[1600] permutation (24 rounds). -/
def keccakF (a : List Nat) : List Nat :=
  keccakRCs.foldl keccakRound a

/-- Assemble the little-endian 64-bit lane starting at byte 8 * i of a block. -/
def laneOfBytes (block : List Nat) (i : Nat) : Nat :=
  (List.range 8).foldl (fun acc j => acc + (block.getD (8 * i + j) 0 <<< (8 * j))) 0

/-- XOR one padded 136-byte block into the outer part of the state. -/
def absorbBlock (state block : List Nat) : List Nat :=
  (List.range 25).map (fun i =>
    state.getD i 0 ^^^ (if i < 17 then laneOfBytes block i else 0))

/-- Absorb a padded message 136 bytes at a time, permuting after each block. -/
def absorbBlocks (state : List Nat) (bytes : List Nat) : List Nat :=
  match bytes with
  | [] => state
  | b :: rest =>
    absorbBlocks (keccakF (absorbBlock state ((b :: rest).take 136)))
      ((b :: rest).drop 136)
termination_by bytes.length
decreasing_by simp [List.length_drop]; omega

/-- SHAKE padding: the 0x1F domain suffix, zero fill to a multiple of the
136-byte rate, and the final 0x80 bit merged into the last byte. -/
def padShake256 (msg : List Nat) : List Nat :=
  let withSuffix := msg ++ [0x1F]
  let rem := withSuffix.length % 136
  let padded := withSuffix ++ List.replicate ((136 - rem) % 136) 0
  padded.dropLast ++ [(padded.getLast?).getD 0 ||| 0x80]

/-- Byte i of the little-endian serialization of a Keccak state. -/
def stateByte (state : List Nat) (i : Nat) : Nat :=
  (state.getD (i / 8) 0 >>> (8 * (i % 8))) % 256

/-- The first 64 output bytes of SHAKE-256 on a byte string, which is what
hashlib.shake_256(data).digest(64) returns (64 bytes fit inside one
squeezed block, so no further permutation is needed). -/
def shake256bytes64 (msg : List Nat) : List Nat :=
  let state := absorbBlocks (List.replicate 25 0) (padShake256 msg)
  (List.range 64).map (stateByte state)

/-- The lowercase hex alphabet character for a value below 16. -/
def hexDigitChar (n : Nat) : Char :=
  "0123456789abcdef".toList.getD n '0'

/-- Two lowercase hex characters of one byte. -/
def hexByte (b : Nat) : String :=
  String.mk [hexDigitChar (b / 16 % 16), hexDigitChar (b % 16)]

/-- Lowercase hex rendering of a byte string. -/
def hexOfBytes : List Nat → String
  | [] => ""
  | b :: rest => hexByte b ++ hexOfBytes rest

/-- hashlib.shake_256(msg).hexdigest(64): 64 output bytes rendered as 128
lowercase hex characters. -/
def shake256hexdigest64 (msg : List Nat) : String :=
  hexOfBytes (shake256bytes64 msg)

/-- The UTF-8 encoding of one code point. -/
def utf8EncodeCharNat (n : Nat) : List Nat :=
  if n < 0x80 then [n]
  else if n < 0x800 then
    [0xC0 ||| (n >>> 6), 0x80 ||| (n &&& 0x3F)]
  else if n < 0x10000 then
    [0xE0 ||| (n >>> 12), 0x80 ||| ((n >>> 6) &&& 0x3F), 0x80 ||| (n &&& 0x3F)]
  else
    [0xF0 ||| (n >>> 18), 0x80 ||| ((n >>> 12) &&& 0x3F),
     0x80 ||| ((n >>> 6) &&& 0x3F), 0x80 ||| (n &&& 0x3F)]

/-- The UTF-8 encoding of a character sequence. -/
def utf8BytesAux : List Char → List Nat
  | [] => []
  | c :: rest => utf8EncodeCharNat c.toNat ++ utf8BytesAux rest

/-- The UTF-8 bytes of a string, as Python str.encode() produces them. -/
def utf8Bytes (s : String) : List Nat :=
  utf8BytesAux s.toList

/-! ### TokenV1 (src/pycommon/api_utils.py) -/

/-- The resolved state of a constructed TokenV1: the raw key handed to the
user, the storable hashed key, and the (always empty) salt. -/
structure TokenV1 where
  rawKey : String
  key : String
  salt : String
deriving Repr, BEq, DecidableEq

namespace TokenV1

/-- TokenV1._key_generator: shake_256(raw_key.encode() + salt.encode())
rendered with hexdigest(64). -/
def keyGenerator (rawKey : String) (salt : String) : String :=
  shake256hexdigest64 (utf8Bytes rawKey ++ utf8Bytes salt)

/-- TokenV1.__init__.  The argument is a JValue because the constructor
starts with an isinstance check on arbitrary input; freshRandom stands for
secrets.token_urlsafe(32), the external randomness used when no key is
given. -/
def make (keyArg : JValue) (freshRandom : String) : Except Exc TokenV1 :=
  match keyArg with
  | .str key =>
    if key ≠ "" then
      if !strStartsWith key "amp-" then
        .error (.valueError "TokenV1 key must start with \x27amp-\x27.")
      else
        .ok ⟨key, keyGenerator key "", ""⟩
    else
      let raw := "amp-v1-" ++ freshRandom
      .ok ⟨raw, keyGenerator raw "", ""⟩
  | _ => .error (.typeError "Key must be a string.")

/-- TokenV1.validate: a constant-time comparison of the stored key against
the digest of the offered raw key. -/
def validate (t : TokenV1) (rawKey : String) : Bool :=
  t.key == keyGenerator rawKey t.salt

end TokenV1

/-! ### Constants (src/pycommon/const.py) -/

/-- const.UNLIMITED. -/
def UNLIMITED : String := "Unlimited"

/-- const.NO_RATE_LIMIT, the default rate-limit configuration. -/
def NO_RATE_LIMIT : JValue :=
  .obj [("period", .str UNLIMITED), ("rate", .null)]

/-! ### Token extraction (authz._parse_token) -/

/-- The value bound to a key after the dict comprehension
normalized_headers = \x7bk.lower(): v for k, v in event["headers"].items()\x7d:
keys are lowercased and a later duplicate overwrites an earlier one, so the
last matching binding of the original map wins. -/
def authHeaderValue (headers : List (String × String)) (k : String) : Option String :=
  ((headers.map (fun kv => (strLower kv.1, kv.2))).reverse.find?
    (fun kv => kv.1 == k)).map (fun kv => kv.2)

/-- authz._parse_token on the headers map carried by the event.  Header
values are strings, as they are in API Gateway events. -/
def parse_token (headers : List (String × String)) : Except Exc String :=
  match authHeaderValue headers "authorization" with
  | none => .error (.http 401 "No Access Token Found")
  | some value =>
    match pySplit value with
    | [scheme, tok] =>
      if strLower scheme = "bearer" then .ok tok
      else .error (.http 401 "No Access Token Found")
    | _ => .error (.http 401 "No Access Token Found")

/-! ### Numeric helpers for the rate limiter -/

/-- The digits value of a nonempty all-digit string. -/
def digitsVal (s : String) : Option Nat :=
  if s.toList ≠ [] && s.toList.all Char.isDigit then
    some (s.toList.foldl (fun acc c => acc * 10 + (c.toNat - 48)) 0)
  else
    none

/-- Python float(x) restricted to the inputs the rate limiter can see:
numbers and booleans convert directly and strings convert when they are a
plain signed decimal literal; anything else raises, which the caller turns
into the generic except branch.  (Exponent and inf/nan literal forms are
outside the model.) -/
def pyFloat (v : JValue) : Option Rat :=
  match v with
  | .num q => some q
  | .bool b => some (if b then 1 else 0)
  | .str s =>
    let t := strTrim s
    let (sgn, body) : Rat × String :=
      if strStartsWith t "-" then (-1, strDrop t 1)
      else if strStartsWith t "+" then (1, strDrop t 1)
      else (1, t)
    (match strSplitOnChar body '.' with
     | [a] => (digitsVal a).map (fun n => sgn * n)
     | [a, b] =>
       if a = "" && b = "" then none
       else
         let ai := if a = "" then some 0 else digitsVal a
         let bi := if b = "" then some 0 else digitsVal b
         match ai, bi with
         | some an, some bn =>
           some (sgn * ((an : Rat) + (bn : Rat) / ((10 : Rat) ^ b.length)))
         | _, _ => none
     | _ => none)
  | _ => none

/-- Python spent >= rate where rate is a float: defined for numeric values
(Decimal and bool included), a TypeError for anything else. -/
def pyGE (spent : JValue) (rate : Rat) : Option Bool :=
  (pyNumVal spent).map (fun q => decide (rate ≤ q))

/-- Round a rational to the nearest integer, ties to even, as Python float
formatting does. -/
def roundHalfEven (q : Rat) : Int :=
  let n := q.floor
  let f := q - (n : Rat)
  if f < 1 / 2 then n
  else if 1 / 2 < f then n + 1
  else if n % 2 = 0 then n else n + 1

/-- The Python format specifier .2f applied to a nonnegative-or-negative
rational: sign, integer part, dot, two fraction digits. -/
def fmt2 (q : Rat) : String :=
  let sign := if q < 0 then "-" else ""
  let cents := (roundHalfEven (|q| * 100)).toNat
  let whole := cents / 100
  let frac := cents % 100
  sign ++ toString whole ++ "." ++ (if frac < 10 then "0" else "") ++ toString frac

/-! ### Rate limiting (authz.is_rate_limited) -/

/-- The failure of the external usage-store query: a boto3 error or any
other exception, matching the two except arms of is_rate_limited. -/
inductive StorageErr where
  | boto3
  | other
deriving Repr, BEq, DecidableEq

/-- authz.is_rate_limited.  The DynamoDB query outcome and the current hour
of day are inputs; everything from the query on sits inside the try block of
the source, so an internal Python error there (non-string period, a rate
that float() rejects, a spent value that does not compare to a float) lands
in the generic except arm.  The function itself is total. -/
def is_rate_limited (rateLimit : PyDict)
    (usage : Except StorageErr (List PyDict)) (nowHour : Nat) : Bool × String :=
  let periodV := pyGet rateLimit "period"
  if isNull periodV then
    (false, "Rate limit period is not specified in the rate_limit data")
  else if pyEq periodV (.str UNLIMITED) then
    (false, "No rate limit set")
  else
    match usage with
    | .error .boto3 => (false, "Error accessing DynamoDB for rate limit check")
    | .error .other => (false, "Unexpected error during rate limit check")
    | .ok items =>
      match items with
      | [] => (false, "Table entry does not exist. Cannot verify if rate limited.")
      | rateData :: _ =>
        match periodV with
        | .str period =>
          let colName := strLower period ++ "Cost"
          let spent0 := pyGet rateData colName
          if isNull spent0 then
            (false, "Column " ++ colName ++ " not found in rate data")
          else
            let hourly : Except (Bool × String) JValue :=
              if period = "Hourly" then
                match spent0 with
                | .arr xs =>
                  if nowHour ≥ xs.length then
                    .error (false, "Hourly cost data is missing or malformed.")
                  else
                    .ok (xs.getD nowHour .null)
                | _ => .error (false, "Hourly cost data is missing or malformed.")
              else
                .ok spent0
            match hourly with
            | .error r => r
            | .ok spent =>
              let rateV := pyGet rateLimit "rate"
              if isNull rateV then
                (false, "Rate value missing in rate_limit.")
              else
                match pyFloat rateV with
                | none => (false, "Unexpected error during rate limit check")
                | some rate =>
                  match pyGE spent rate with
                  | none => (false, "Unexpected error during rate limit check")
                  | some limited =>
                    if limited then
                      (true, "rate limit exceeded ($" ++ fmt2 rate ++ "/" ++ period ++ ")")
                    else
                      (false, "Rate limit not exceeded")
        | _ =>
          -- period.lower() on a non-string raises AttributeError inside the
          -- try block, which the generic except arm absorbs
          (false, "Unexpected error during rate limit check")

/-! ### Dates (datetime.strptime with format %Y-%m-%d) -/

/-- Days of a month, with the Gregorian leap rule for February. -/
def daysInMonth (y m : Nat) : Nat :=
  if m = 2 then
    if y % 4 = 0 && (y % 100 ≠ 0 || y % 400 = 0) then 29 else 28
  else if m = 4 || m = 6 || m = 9 || m = 11 then 30
  else 31

/-- datetime.strptime(s, "%Y-%m-%d") as a (year, month, day) triple: three
dash-separated digit groups — the year exactly four digits and at least 1
(CPython's %Y matches four digits and year 0 is out of range), month and day
one or two digits with their ranges validated against the calendar.  None
models the ValueError strptime raises on anything else, including embedded
whitespace, signs and leftover characters. -/
def parseDate (s : String) : Option (Nat × Nat × Nat) :=
  match strSplitOnChar s '-' with
  | [ys, ms, ds] =>
    if ys.length = 4 && ms.length ≤ 2 && ds.length ≤ 2 then
      match digitsVal ys, digitsVal ms, digitsVal ds with
      | some y, some m, some d =>
        if 1 ≤ y && 1 ≤ m && m ≤ 12 && 1 ≤ d && d ≤ daysInMonth y m then
          some (y, m, d)
        else none
      | _, _, _ => none
    else none
  | _ => none

/-- Calendar order on date triples.  The source compares the parsed date (a
datetime at midnight) with datetime.now(); since now is never before the
midnight of its own day, that comparison is exactly this date order against
the current date. -/
def dateLe (a b : Nat × Nat × Nat) : Bool :=
  a.1 < b.1 ||
    (a.1 = b.1 && (a.2.1 < b.2.1 || (a.2.1 = b.2.1 && a.2.2 ≤ b.2.2)))

/-! ### API user determination (authz._determine_api_user) -/

/-- The lazy part of the regex /(.*?)Key/ once a slash has been consumed:
the shortest run of non-newline characters followed by the literal
"Key/". -/
def matchAfterSlash : List Char → Option (List Char)
  | [] => none
  | c :: rest =>
    if ['K', 'e', 'y', '/'].isPrefixOf (c :: rest) then some []
    else if c = '\n' then none
    else (matchAfterSlash rest).map (fun g => c :: g)

/-- re.search of the pattern /(.*?)Key/ over a string: the leftmost position
where a slash is followed by a lazily matched group and "Key/", returning
the group. -/
def searchKeyType : List Char → Option String
  | [] => none
  | c :: rest =>
    if c = '/' then
      match matchAfterSlash rest with
      | some g => some (String.mk g)
      | none => searchKeyType rest
    else searchKeyType rest

/-- authz._determine_api_user. -/
def determine_api_user (data : PyDict) : Except Exc String :=
  match pyGetD data "api_owner_id" (.str "") with
  | .str s =>
    let keyType := searchKeyType s.toList
    let userField : Option (String × String) :=
      match keyType with
      | some "owner" => some ("owner", "owner")
      | some "delegate" => some ("delegate", "delegate")
      | some "system" => some ("system", "systemId")
      | _ => none
    match userField with
    | none => .error (.unknownApiUser "Invalid or unrecognized key type.")
    | some (kt, fld) =>
      let user := pyGet data fld
      let badUser : Exc :=
        .unknownApiUser
          ("Missing or invalid user identifier for key type \x27" ++ kt ++ "\x27.")
      match user with
      | .str u => if u = "" then .error badUser else .ok u
      | _ => .error badUser
  | _ => .error (.typeError "expected string or bytes-like object")

/-! ### API key claims (authz.api_claims) -/

/-- The slice of the external world api_claims consults: the API-key
registry query by apiKey value, the clock, the usage store behind
is_rate_limited, and the process-wide accepted access types
(authz._access_types). -/
structure ApiEnv where
  registryQuery : String → List PyDict
  nowDate : Nat × Nat × Nat
  nowHour : Nat
  usageQuery : String → Except StorageErr (List PyDict)
  accessTypes : List String

/-- The outcome of api_claims: the returned claims dict or the raised
exception, together with the api_owner_id keys whose lastAccessed timestamp
the call wrote (the only write the function performs). -/
structure ApiResolution where
  result : Except Exc PyDict
  touched : List JValue
deriving Repr

/-- Whether the needle occurs as a contiguous run inside the haystack. -/
def charsContain (hay needle : List Char) : Bool :=
  match hay with
  | [] => needle.isEmpty
  | _ :: t => needle.isPrefixOf hay || charsContain t needle

/-- Python access_type in access for one access type: element equality for a
list, substring for a string, key membership for a dict, TypeError
otherwise. -/
def pyContainsStr (container : JValue) (x : String) : Except Exc Bool :=
  match container with
  | .arr xs => .ok (xs.any (fun v => pyEq (.str x) v))
  | .str s => .ok (charsContain s.toList x.toList)
  | .obj fields => .ok (hasKey fields x)
  | _ => .error (.typeError "argument is not iterable")

/-- any(access_type in access for access_type in _access_types). -/
def anyAccess (accessTypes : List String) (access : JValue) : Except Exc Bool :=
  match accessTypes with
  | [] => .ok false
  | t :: rest =>
    match pyContainsStr access t with
    | .error e => .error e
    | .ok true => .ok true
    | .ok false => anyAccess rest access

/-- The registry lookup value: a versioned amp-v1- key is looked up by its
TokenV1 digest, anything else by its raw value (authz.api_claims lines
456-460). -/
def apiLookupValue (token : String) : Except Exc String :=
  if strTake token 7 = "amp-v1-" then
    match TokenV1.make (.str token) "" with
    | .ok t => .ok t.key
    | .error e => .error e
  else
    .ok token

/-- The expiry test of api_claims: no failure when expirationDate is absent
or falsy, PermissionError material (the ok true outcome) when the parsed
date is at or before the current date, and the strptime errors otherwise.
datetime.strptime at midnight compared with datetime.now() is exactly the
calendar-date comparison dateLe, since now is never before the midnight of
its own day. -/
def expiryCheck (item : PyDict) (now : Nat × Nat × Nat) : Except Exc Bool :=
  let expirationDate := pyGet item "expirationDate"
  if !pyTruthy expirationDate then .ok false
  else
    match expirationDate with
    | .str es =>
      match parseDate es with
      | some d => .ok (dateLe d now)
      | none => .error (.valueError "time data does not match format")
    | _ => .error (.typeError "strptime argument must be str")

/-- authz.api_claims.  Every raising path before the update_item call leaves
touched empty; the update itself is the single write, keyed by the record
api_owner_id, and only the assembly of the returned dict comes after it. -/
def api_claims (env : ApiEnv) (token : String) : ApiResolution :=
  match apiLookupValue token with
  | .error e => ⟨.error e, []⟩
  | .ok lookupValue =>
    match env.registryQuery lookupValue with
    | [] => ⟨.error (.lookup "API key not found."), []⟩
    | item :: _ =>
      if !pyTruthy (pyGetD item "active" (.bool false)) then
        ⟨.error (.permission "API key is inactive."), []⟩
      else
        match expiryCheck item env.nowDate with
        | .error e => ⟨.error e, []⟩
        | .ok true => ⟨.error (.permission "API key has expired."), []⟩
        | .ok false =>
          let access := pyGetD item "accessTypes" (.arr [])
          match anyAccess env.accessTypes access with
          | .error e => ⟨.error e, []⟩
          | .ok false =>
            ⟨.error (.permission
              "API key does not have access to the required functionality."), []⟩
          | .ok true =>
            match determine_api_user item with
            | .error e => ⟨.error e, []⟩
            | .ok currentUser =>
              let rateLimitV := pyGetD item "rateLimit" (.obj [])
              match rateLimitV with
              | .obj rateLimit =>
                let rl := is_rate_limited rateLimit
                  (env.usageQuery currentUser) env.nowHour
                if rl.1 then
                  ⟨.error (.http 401 rl.2), []⟩
                else
                  match pyIndex item "api_owner_id" with
                  | .error e => ⟨.error e, []⟩
                  | .ok apiOwnerId =>
                    -- the lastAccessed touch happens here
                    let build : Except Exc PyDict :=
                      match pyIndex item "account" with
                      | .error e => .error e
                      | .ok accountV =>
                        match pyIndexV accountV "id" with
                        | .error e => .error e
                        | .ok accountId =>
                          .ok [("username", .str currentUser),
                               ("account", accountId),
                               ("allowed_access", access),
                               ("rate_limit", rateLimitV),
                               ("api_key_id", apiOwnerId),
                               ("purpose", pyGet item "purpose")]
                    ⟨build, [apiOwnerId]⟩
              | _ =>
                -- rate_limit.get("period") on a non-dict raises AttributeError
                ⟨.error (.attributeError "value has no attribute get"), []⟩

/-! ### JWT claims (authz.get_claims) -/

/-- The outcome of jose.jwt.decode for the presented token against the
selected key, audience and issuer: the verified payload, or one of the three
error classes the source distinguishes. -/
inductive DecodeOutcome where
  | ok (payload : PyDict)
  | expired
  | claimsError
  | jwtError
deriving Repr

/-- The slice of the external world get_claims consults: the configured
issuer URL, the JWKS fetch, jose.jwt.get_unverified_header, jose.jwt.decode,
the accounts-table lookup and the IDP_PREFIX environment value. -/
structure JwtEnv where
  issuerUrl : String
  jwksOk : Bool
  jwksStatus : Nat
  jwksJson : Option JValue
  headerRes : Except Exc JValue
  decodeRes : DecodeOutcome
  accountItem : Option PyDict
  idpPref : String

/-- The linear scan of jwks_data["keys"] for the entry whose kid equals the
token header kid; a non-dict entry makes key.get raise AttributeError. -/
def findRsaKey (keys : List JValue) (headerKid : JValue) : Except Exc (Option JValue) :=
  match keys with
  | [] => .ok none
  | k :: rest =>
    match k with
    | .obj ko =>
      if pyEq (pyGet ko "kid") headerKid then .ok (some k)
      else findRsaKey rest headerKid
    | _ => .error (.attributeError "value has no attribute get")

/-- The loop of get_claims over the account sub-records: account starts as
None and NO_RATE_LIMIT stands until a default sub-record carries a truthy
rateLimit.  Every sub-record must be a dict with an isDefault key; a default
one must also have an id. -/
def scanAccounts (accts : List JValue) (account rateLimit : JValue) :
    Except Exc (JValue × JValue) :=
  match accts with
  | [] => .ok (account, rateLimit)
  | a :: rest =>
    match a with
    | .obj ao =>
      match pyIndex ao "isDefault" with
      | .error e => .error e
      | .ok isDef =>
        if pyTruthy isDef then
          match pyIndex ao "id" with
          | .error e => .error e
          | .ok idv =>
            let rl := pyGet ao "rateLimit"
            scanAccounts rest idv (if pyTruthy rl then rl else rateLimit)
        else
          scanAccounts rest account rateLimit
    | _ => .error (.typeError "value is not subscriptable with a string key")

/-- The accounts list get_claims extracts from the store response:
response.get("Item", \x7b\x7d).get("accounts", []). -/
def accountRecords (env : JwtEnv) : JValue :=
  match env.accountItem with
  | none => pyGetD [] "accounts" (.arr [])
  | some it => pyGetD it "accounts" (.arr [])

/-- authz.get_claims.  The token is Optional to carry the leading
None-or-non-string guard; the validated wrapper always passes the parsed
token string. -/
def get_claims (env : JwtEnv) (tokenOpt : Option String) : Except Exc PyDict :=
  match tokenOpt with
  | none => .error (.claim "No Valid Access Token Found")
  | some _token =>
    if !env.jwksOk then
      .error (.claim ("Failed to retrieve JWKS from " ++ env.issuerUrl ++
        "/.well-known/jwks.json, status code: " ++ toString env.jwksStatus))
    else
      match env.jwksJson with
      | none => .error (.claim "Invalid JWKS response")
      | some jwksData =>
        match env.headerRes with
        | .error e => .error e
        | .ok headerV =>
          match jwksData, headerV with
          | .obj jo, .obj ho =>
            let keysV := pyGetD jo "keys" (.arr [])
            match keysV with
            | .arr keys =>
              match findRsaKey keys (pyGet ho "kid") with
              | .error e => .error e
              | .ok rsaKey =>
                if !(match rsaKey with
                     | some k => pyTruthy k
                     | none => false) then
                  .error (.claim "No valid RSA key found in JWKS")
                else
                  match env.decodeRes with
                  | .expired => .error (.claim "JWT token has expired")
                  | .claimsError => .error (.claim "Invalid JWT claims")
                  | .jwtError => .error (.claim "Invalid JWT token")
                  | .ok payload =>
                    match pyIndex payload "username" with
                    | .error e => .error e
                    | .ok userV =>
                      match userV with
                      | .str user0 =>
                        let pref := strLower env.idpPref
                        let user :=
                          if pref.length > 0 && strStartsWith user0 (pref ++ "_") then
                            strDrop user0 (pref ++ "_").length
                          else user0
                        match accountRecords env with
                        | .arr accts =>
                          match scanAccounts accts .null NO_RATE_LIMIT with
                          | .error e => .error e
                          | .ok (account0, rateLimit) =>
                            let account :=
                              if !pyTruthy account0 then .str "general_account"
                              else account0
                            .ok (dictSet (dictSet (dictSet (dictSet payload
                                  "account" account)
                                  "rate_limit" rateLimit)
                                  "username" (.str user))
                                  "allowed_access" (.arr [.str "full_access"]))
                        | _ => .error (.typeError "value is not iterable")
                      | _ => .error (.attributeError "value has no attribute startswith")
            | _ => .error (.typeError "value is not iterable")
          | _, _ => .error (.attributeError "value has no attribute get")

/-! ### Schema validation (authz._validate_data) -/

/-- The outcome of jsonschema.validate on an instance and a schema: success,
a ValidationError about the instance, or a SchemaError about the schema. -/
inductive SchemaOutcome where
  | pass
  | invalid (message : String)
  | schemaErr (message : String)
deriving Repr

/-- authz._validate_data.  The rule tables are dicts of dicts as
setup_validated installs them; the schemaCheck argument is the external
jsonschema.validate.  When the matched schema is not the empty dict the
instance handed to jsonschema is data["data"], whose absence raises an
uncaught KeyError before jsonschema runs. -/
def validate_data (schemaCheck : JValue → JValue → SchemaOutcome) (name : JValue)
    (op : String) (data : JValue) (apiAccessed : Bool) (validatorRules : PyDict) :
    Except Exc Unit :=
  let vKey := if apiAccessed then "api_validators" else "validators"
  let validator := pyGetD validatorRules vKey .null
  if !pyTruthy validator then
    .error (.validation "No validator found for the operation")
  else
    let entry : Option JValue :=
      match validator, name with
      | .obj vo, .str n =>
        match dictGet vo n with
        | some (.obj ro) => dictGet ro op
        | _ => none
      | _, _ => none
    match entry with
    | some schema =>
      let instE : Except Exc JValue :=
        if isEmptyDict schema then .ok data else pyIndexV data "data"
      match instE with
      | .error e => .error e
      | .ok inst =>
        match schemaCheck inst schema with
        | .pass => .ok ()
        | .invalid m => .error (.validation ("Invalid data: " ++ m))
        | .schemaErr m => .error (.validation ("Invalid schema: " ++ m))
    | none => .error (.validation "Invalid data or path")

/-! ### Path and body extraction, permission check
    (authz._parse_and_validate) -/

/-- The path-location chain of _parse_and_validate: the path key, then
rawPath, then requestContext.http.path, then requestContext.path; the first
key that is present wins even when its value is null, and None results when
no shape matches. -/
def resolveName (fields : PyDict) : Except Exc JValue :=
  if hasKey fields "path" then .ok (pyGet fields "path")
  else if hasKey fields "rawPath" then .ok (pyGet fields "rawPath")
  else
    match dictGet fields "requestContext" with
    | some rc =>
      match pyContainsStr rc "http" with
      | .error e => .error e
      | .ok true =>
        match pyIndexV rc "http" with
        | .error e => .error e
        | .ok httpV =>
          match httpV with
          | .obj ho => .ok (pyGet ho "path")
          | _ => .error (.attributeError "value has no attribute get")
      | .ok false =>
        match pyContainsStr rc "path" with
        | .error e => .error e
        | .ok true =>
          match rc with
          | .obj ro => .ok (pyGet ro "path")
          | _ => .error (.attributeError "value has no attribute get")
        | .ok false => .ok .null
    | none => .ok .null

/-- The permission checker configured through setup_validated: curried as
(user, type, op, data) to a callable on (user, data). -/
abbrev PermChecker :=
  JValue → JValue → String → JValue → Except Exc (JValue → JValue → Except Exc JValue)

/-- The external collaborators and process-wide configuration the pipeline
sees: the JWT environment, the API-key environment, json.loads,
jsonschema.validate, and the module globals _validate_rules and
_permission_checker. -/
structure Env where
  jwt : JwtEnv
  api : ApiEnv
  jsonParse : String → Option JValue
  schemaCheck : JValue → JValue → SchemaOutcome
  rules : Option PyDict
  checker : Option PermChecker

/-- The body-parsing step of _parse_and_validate: json.loads of the body
whenever a truthy body is present — independently of validateBody — with a
parse failure raising HTTPBadRequest, and an empty dict otherwise. -/
def bodyParse (env : Env) (eventFields : PyDict) : Except Exc JValue :=
  let bodyV := pyGet eventFields "body"
  if pyTruthy bodyV then
    match bodyV with
    | .str s =>
      match env.jsonParse s with
      | some v => .ok v
      | none => .error (.http 400 "Unable to parse JSON body.")
    | _ => .error (.typeError "the JSON object must be str, bytes or bytearray")
  else .ok (.obj [])

/-- The conditional schema-validation step of _parse_and_validate: when
validateBody holds, run _validate_data and convert its ValidationError to
HTTPBadRequest, passing every other exception through. -/
def validationStage (env : Env) (name : JValue) (op : String) (data : JValue)
    (apiAccessed : Bool) (validatorRules : PyDict) (validateBody : Bool) :
    Except Exc Unit :=
  if validateBody then
    match validate_data env.schemaCheck name op data apiAccessed
        validatorRules with
    | .error (.validation m) => .error (.http 400 m)
    | .error e => .error e
    | .ok _ => .ok ()
  else .ok ()

/-- The permission step of _parse_and_validate: a missing checker grants; a
NameError or TypeError from the checker or its returned callable is
swallowed and grants; a falsy decision raises HTTPUnauthorized, which (like
every other exception) passes through the except clause uncaught. -/
def permissionStage (checker : Option PermChecker) (currentUser name : JValue)
    (op : String) (data : JValue) : Except Exc Unit :=
  let inner : Except Exc Unit :=
    match checker with
    | none => .ok ()
    | some pc =>
      match pc currentUser name op data with
      | .error e => .error e
      | .ok resf =>
        match resf currentUser data with
        | .error e => .error e
        | .ok rv =>
          if !pyTruthy rv then
            .error (.http 401
              "User does not have permission to perform the operation.")
          else .ok ()
  match inner with
  | .error (.nameError _) => .ok ()
  | .error (.typeError _) => .ok ()
  | .error e => .error e
  | .ok _ => .ok ()

/-- authz._parse_and_validate.  The body is parsed whenever it is present
and truthy, regardless of validateBody; only the schema-validation call is
conditional. -/
def parse_and_validate (env : Env) (currentUser : JValue) (eventFields : PyDict)
    (op : String) (apiAccessed : Bool) (validatorRules : PyDict)
    (validateBody : Bool) (checker : Option PermChecker) :
    Except Exc (JValue × JValue) :=
  match resolveName eventFields with
  | .error e => .error e
  | .ok name =>
    match bodyParse env eventFields with
    | .error e => .error e
    | .ok data =>
      if !pyTruthy name then
        .error (.http 400 "Unable to perform the operation, invalid request.")
      else
        match validationStage env name op data apiAccessed validatorRules
            validateBody with
        | .error e => .error e
        | .ok _ =>
          match permissionStage checker currentUser name op data with
          | .error e => .error e
          | .ok _ => .ok (name, data)

/-! ### Response envelope and the validated wrapper (authz.validated) -/

/-- One escaped character of a JSON string literal. -/
def jsonEscapeChar (c : Char) : String :=
  if c = '\\' then "\\\\"
  else if c = '"' then "\\\""
  else if c = '\n' then "\\n"
  else if c = '\t' then "\\t"
  else if c = '\r' then "\\r"
  else String.singleton c

/-- JSON string-literal escaping as json.dumps performs it on the characters
that occur here. -/
def jsonEscape (s : String) : String :=
  s.toList.foldl (fun acc c => acc ++ jsonEscapeChar c) ""

mutual

/-- json.dumps with its default separators. -/
def jsonDumps : JValue → String
  | .null => "null"
  | .bool b => if b then "true" else "false"
  | .num q => if q.den = 1 then toString q.num else toString q
  | .str s => "\"" ++ jsonEscape s ++ "\""
  | .arr xs => "[" ++ jsonDumpsList xs ++ "]"
  | .obj fs => "\x7b" ++ jsonDumpsFields fs ++ "\x7d"

/-- Comma-separated rendering of array elements. -/
def jsonDumpsList : List JValue → String
  | [] => ""
  | [x] => jsonDumps x
  | x :: y :: rest => jsonDumps x ++ ", " ++ jsonDumpsList (y :: rest)

/-- Comma-separated rendering of object members. -/
def jsonDumpsFields : List (String × JValue) → String
  | [] => ""
  | [(k, v)] => "\"" ++ jsonEscape k ++ "\": " ++ jsonDumps v
  | (k, v) :: m :: rest =>
    "\"" ++ jsonEscape k ++ "\": " ++ jsonDumps v ++ ", " ++ jsonDumpsFields (m :: rest)

end

/-- The HTTP-shaped response of the wrapper. -/
structure Envelope where
  statusCode : Nat
  body : String
deriving Repr, BEq, DecidableEq

/-- An inbound event: its headers map and the rest of its fields. -/
structure Event where
  headers : List (String × String)
  fields : PyDict

/-- A wrapped business handler: (event, context, current_user, name, data);
the context argument carries no information in this subsystem and is
dropped. -/
abbrev Handler := Event → JValue → JValue → JValue → Except Exc JValue

/-- The body of json.dumps applied to the error dict of the wrapper,
with the message interpolated as f"Error: status - message". -/
def errorBody (code : Nat) (msg : String) : String :=
  jsonDumps (.obj [("error", .str ("Error: " ++ toString code ++ " - " ++ msg))])

/-- The seven data-dict enrichments the wrapper performs after
_parse_and_validate succeeds, in source order. -/
def enrichData (claims : PyDict) (token : String) (apiAccessed : Bool)
    (data : JValue) : Except Exc JValue :=
  match pySetItem data "access_token" (.str token) with
  | .error e => .error e
  | .ok d1 =>
    match pyIndex claims "account" with
    | .error e => .error e
    | .ok acc =>
      match pySetItem d1 "account" acc with
      | .error e => .error e
      | .ok d2 =>
        match pySetItem d2 "api_key_id" (pyGet claims "api_key_id") with
        | .error e => .error e
        | .ok d3 =>
          match pyIndex claims "rate_limit" with
          | .error e => .error e
          | .ok rl =>
            match pySetItem d3 "rate_limit" rl with
            | .error e => .error e
            | .ok d4 =>
              match pySetItem d4 "api_accessed" (.bool apiAccessed) with
              | .error e => .error e
              | .ok d5 =>
                match pyIndex claims "allowed_access" with
                | .error e => .error e
                | .ok aa =>
                  match pySetItem d5 "allowed_access" aa with
                  | .error e => .error e
                  | .ok d6 => pySetItem d6 "purpose" (pyGet claims "purpose")

/-- The try-block body of the wrapper produced by authz.validated: token
extraction, claims resolution routed on the amp- marker, parse-and-validate,
data enrichment, and the handler call. -/
def pipelineTry (env : Env) (op : String) (validateBody : Bool) (f : Handler)
    (event : Event) : Except Exc JValue :=
  match parse_token event.headers with
  | .error e => .error e
  | .ok token =>
    let apiAccessed := strTake token 4 == "amp-"
    let claimsE :=
      if apiAccessed then (api_claims env.api token).result
      else get_claims env.jwt (some token)
    match claimsE with
    | .error e => .error e
    | .ok claims =>
      match pyIndex claims "username" with
      | .error e => .error e
      | .ok currentUser =>
        if isNull currentUser then .error (.http 401 "User not found.")
        else
          let rulesDict := match env.rules with
            | some r => r
            | none => []
          match parse_and_validate env currentUser event.fields op apiAccessed
              rulesDict validateBody env.checker with
          | .error e => .error e
          | .ok (name, data) =>
            match enrichData claims token apiAccessed data with
            | .error e => .error e
            | .ok d => f event currentUser name d

/-- The wrapper returned by authz.validated: a 200 envelope holding the
json-encoded handler result, an error envelope for any HTTPException, and a
re-raise (an error value here) for every other exception. -/
def validatedWrapper (env : Env) (op : String) (validateBody : Bool)
    (f : Handler) (event : Event) : Except Exc Envelope :=
  match pipelineTry env op validateBody f event with
  | .ok result => .ok ⟨200, jsonDumps result⟩
  | .error (.http code msg) => .ok ⟨code, errorBody code msg⟩
  | .error e => .error e

/-! ## Claims -/

/-- C4: for every headers map, _parse_token raises Unauthorized whenever the
Authorization header (matched case-insensitively) is absent, its value does
not split on whitespace into exactly two parts (so a value of Bearer
followed only by whitespace fails rather than yielding an empty token), or
the first part is not Bearer case-insensitively; it never returns a token in
those cases, and otherwise returns the second part as the token. -/
theorem c4_parse_token_characterization (headers : List (String × String)) :
    (authHeaderValue headers "authorization" = none →
      parse_token headers = .error (.http 401 "No Access Token Found"))
    ∧ (∀ v parts, authHeaderValue headers "authorization" = some v →
        pySplit v = parts → parts.length ≠ 2 →
        parse_token headers = .error (.http 401 "No Access Token Found"))
    ∧ (∀ v s t, authHeaderValue headers "authorization" = some v →
        pySplit v = [s, t] → strLower s ≠ "bearer" →
        parse_token headers = .error (.http 401 "No Access Token Found"))
    ∧ (∀ v s t, authHeaderValue headers "authorization" = some v →
        pySplit v = [s, t] → strLower s = "bearer" →
        parse_token headers = .ok t)
    ∧ (∀ t, parse_token headers = .ok t →
        ∃ v s, authHeaderValue headers "authorization" = some v ∧
          pySplit v = [s, t] ∧ strLower s = "bearer") := by
  refine ⟨?_, ?_, ?_, ?_, ?_⟩
  · intro h
    simp [parse_token, h]
  · intro v parts hv hp hlen
    simp only [parse_token, hv]
    rw [hp]
    match parts, hlen with
    | [], _ => rfl
    | [a], _ => rfl
    | [a, b], hlen => exact absurd rfl hlen
    | a :: b :: c :: rest, _ => rfl
  · intro v s t hv hp hs
    simp [parse_token, hv, hp, hs]
  · intro v s t hv hp hs
    simp [parse_token, hv, hp, hs]
  · intro t ht
    cases h : authHeaderValue headers "authorization" with
    | none => simp [parse_token, h] at ht
    | some v =>
      simp only [parse_token, h] at ht
      refine ⟨v, ?_⟩
      cases hp : pySplit v with
      | nil => rw [hp] at ht; cases ht
      | cons a l1 =>
        cases l1 with
        | nil => rw [hp] at ht; cases ht
        | cons b l2 =>
          cases l2 with
          | nil =>
            rw [hp] at ht
            by_cases hs : strLower a = "bearer"
            · simp [hs] at ht
              exact ⟨a, rfl, by rw [ht], hs⟩
            · simp [hs] at ht
          | cons c l3 => rw [hp] at ht; cases ht

/-- C2: is_rate_limited is total (it is a Lean function, and every raising
path of the Python body sits inside its try/except), returns (false, reason)
for every degenerate case — period missing, period Unlimited, storage error,
no usage record, usage column absent, Hourly column not an array or the hour
out of range, rate missing — and otherwise is limited exactly when
spent >= rate (inclusive), with a reason embedding the formatted rate and
the period. -/
theorem c2_is_rate_limited_characterization (rateLimit : PyDict)
    (usage : Except StorageErr (List PyDict)) (nowHour : Nat) :
    (pyGet rateLimit "period" = .null →
      is_rate_limited rateLimit usage nowHour =
        (false, "Rate limit period is not specified in the rate_limit data"))
    ∧ (pyGet rateLimit "period" = .str UNLIMITED →
      is_rate_limited rateLimit usage nowHour = (false, "No rate limit set"))
    ∧ (∀ p, pyGet rateLimit "period" = .str p → p ≠ UNLIMITED →
        usage = .error .boto3 →
        is_rate_limited rateLimit usage nowHour =
          (false, "Error accessing DynamoDB for rate limit check"))
    ∧ (∀ p, pyGet rateLimit "period" = .str p → p ≠ UNLIMITED →
        usage = .error .other →
        is_rate_limited rateLimit usage nowHour =
          (false, "Unexpected error during rate limit check"))
    ∧ (∀ p, pyGet rateLimit "period" = .str p → p ≠ UNLIMITED →
        usage = .ok [] →
        is_rate_limited rateLimit usage nowHour =
          (false, "Table entry does not exist. Cannot verify if rate limited."))
    ∧ (∀ p rd rest, pyGet rateLimit "period" = .str p → p ≠ UNLIMITED →
        usage = .ok (rd :: rest) →
        pyGet rd (strLower p ++ "Cost") = .null →
        is_rate_limited rateLimit usage nowHour =
          (false, "Column " ++ (strLower p ++ "Cost") ++ " not found in rate data"))
    ∧ (∀ rd rest sp, pyGet rateLimit "period" = .str "Hourly" →
        usage = .ok (rd :: rest) → pyGet rd "hourlyCost" = sp → sp ≠ .null →
        (∀ xs, sp ≠ .arr xs) →
        is_rate_limited rateLimit usage nowHour =
          (false, "Hourly cost data is missing or malformed."))
    ∧ (∀ rd rest xs, pyGet rateLimit "period" = .str "Hourly" →
        usage = .ok (rd :: rest) → pyGet rd "hourlyCost" = .arr xs →
        nowHour ≥ xs.length →
        is_rate_limited rateLimit usage nowHour =
          (false, "Hourly cost data is missing or malformed."))
    ∧ (∀ p rd rest, pyGet rateLimit "period" = .str p → p ≠ UNLIMITED →
        p ≠ "Hourly" → usage = .ok (rd :: rest) →
        pyGet rd (strLower p ++ "Cost") ≠ .null →
        pyGet rateLimit "rate" = .null →
        is_rate_limited rateLimit usage nowHour =
          (false, "Rate value missing in rate_limit."))
    ∧ (∀ p rd rest rv r q, pyGet rateLimit "period" = .str p → p ≠ UNLIMITED →
        p ≠ "Hourly" → usage = .ok (rd :: rest) →
        pyNumVal (pyGet rd (strLower p ++ "Cost")) = some q →
        pyGet rateLimit "rate" = rv → rv ≠ .null → pyFloat rv = some r →
        r ≤ q →
        is_rate_limited rateLimit usage nowHour =
          (true, "rate limit exceeded ($" ++ fmt2 r ++ "/" ++ p ++ ")"))
    ∧ (∀ p rd rest rv r q, pyGet rateLimit "period" = .str p → p ≠ UNLIMITED →
        p ≠ "Hourly" → usage = .ok (rd :: rest) →
        pyNumVal (pyGet rd (strLower p ++ "Cost")) = some q →
        pyGet rateLimit "rate" = rv → rv ≠ .null → pyFloat rv = some r →
        ¬r ≤ q →
        is_rate_limited rateLimit usage nowHour =
          (false, "Rate limit not exceeded"))
    ∧ (∀ rd rest xs rv r q, pyGet rateLimit "period" = .str "Hourly" →
        usage = .ok (rd :: rest) → pyGet rd "hourlyCost" = .arr xs →
        nowHour < xs.length → pyNumVal (xs.getD nowHour .null) = some q →
        pyGet rateLimit "rate" = rv → rv ≠ .null → pyFloat rv = some r →
        r ≤ q →
        is_rate_limited rateLimit usage nowHour =
          (true, "rate limit exceeded ($" ++ fmt2 r ++ "/" ++ "Hourly" ++ ")"))
    ∧ (∀ rd rest xs rv r q, pyGet rateLimit "period" = .str "Hourly" →
        usage = .ok (rd :: rest) → pyGet rd "hourlyCost" = .arr xs →
        nowHour < xs.length → pyNumVal (xs.getD nowHour .null) = some q →
        pyGet rateLimit "rate" = rv → rv ≠ .null → pyFloat rv = some r →
        ¬r ≤ q →
        is_rate_limited rateLimit usage nowHour =
          (false, "Rate limit not exceeded"))
    ∧ (∀ rd rest xs, pyGet rateLimit "period" = .str "Hourly" →
        usage = .ok (rd :: rest) → pyGet rd "hourlyCost" = .arr xs →
        nowHour < xs.length → pyGet rateLimit "rate" = .null →
        is_rate_limited rateLimit usage nowHour =
          (false, "Rate value missing in rate_limit.")) := by
  have hne : ∀ v : JValue, v ≠ .null → isNull v = false := by
    intro v hv
    cases v with
    | null => exact absurd rfl hv
    | bool b => rfl
    | num q => rfl
    | str s => rfl
    | arr xs => rfl
    | obj fs => rfl
  have hcol : strLower "Hourly" ++ "Cost" = "hourlyCost" := by decide
  have hhu : ("Hourly" : String) ≠ UNLIMITED := by decide
  refine ⟨?_, ?_, ?_, ?_, ?_, ?_, ?_, ?_, ?_, ?_, ?_, ?_, ?_, ?_⟩
  · intro h
    simp [is_rate_limited, h, isNull]
  · intro h
    simp [is_rate_limited, h, isNull, pyEq, pyNumVal, jvalEq]
  · intro p h hp hu
    simp [is_rate_limited, h, hu, isNull, pyEq, pyNumVal, jvalEq, hp]
  · intro p h hp hu
    simp [is_rate_limited, h, hu, isNull, pyEq, pyNumVal, jvalEq, hp]
  · intro p h hp hu
    simp [is_rate_limited, h, hu, isNull, pyEq, pyNumVal, jvalEq, hp]
  · intro p rd rest h hp hu hc
    simp [is_rate_limited, h, hu, hc, isNull, pyEq, pyNumVal, jvalEq, hp]
  · intro rd rest sp h hu hc hnn hna
    cases sp with
    | null => exact absurd rfl hnn
    | arr xs => exact absurd rfl (hna xs)
    | bool b =>
      simp [is_rate_limited, h, hu, hcol, hc, isNull, pyEq, pyNumVal, jvalEq, hhu]
    | num q =>
      simp [is_rate_limited, h, hu, hcol, hc, isNull, pyEq, pyNumVal, jvalEq, hhu]
    | str s =>
      simp [is_rate_limited, h, hu, hcol, hc, isNull, pyEq, pyNumVal, jvalEq, hhu]
    | obj fs =>
      simp [is_rate_limited, h, hu, hcol, hc, isNull, pyEq, pyNumVal, jvalEq, hhu]
  · intro rd rest xs h hu hc hlen
    simp [is_rate_limited, h, hu, hcol, hc, isNull, pyEq, pyNumVal, jvalEq, hhu,
      hlen]
  · intro p rd rest h hp hh hu hc hr
    simp [is_rate_limited, h, hu, hr, isNull, pyEq, pyNumVal, jvalEq, hp, hh,
      hne _ hc]
  · intro p rd rest rv r q h hp hh hu hq hrv hrn hfl hle
    have hc : pyGet rd (strLower p ++ "Cost") ≠ .null := by
      intro hx
      rw [hx] at hq
      simp [pyNumVal] at hq
    have hge : pyGE (pyGet rd (strLower p ++ "Cost")) r = some true := by
      simp [pyGE, hq, hle]
    simp only [is_rate_limited, h, hu, hrv]
    simp [isNull, pyEq, pyNumVal, jvalEq, hp, hh, hne _ hc, hne _ hrn, hfl, hge]
  · intro p rd rest rv r q h hp hh hu hq hrv hrn hfl hle
    have hc : pyGet rd (strLower p ++ "Cost") ≠ .null := by
      intro hx
      rw [hx] at hq
      simp [pyNumVal] at hq
    have hge : pyGE (pyGet rd (strLower p ++ "Cost")) r = some false := by
      simp [pyGE, hq, hle]
    simp only [is_rate_limited, h, hu, hrv]
    simp [isNull, pyEq, pyNumVal, jvalEq, hp, hh, hne _ hc, hne _ hrn, hfl, hge]
  · intro rd rest xs rv r q h hu hc hlen hq hrv hrn hfl hle
    have hq2 : pyNumVal (xs[nowHour]?.getD JValue.null) = some q := by
      simpa using hq
    have hge : pyGE (xs[nowHour]?.getD JValue.null) r = some true := by
      simp [pyGE, hq2, hle]
    simp only [is_rate_limited, h, hu, hrv]
    simp [isNull, pyEq, pyNumVal, jvalEq, hne _ hrn, hfl, hge,
      Nat.not_le.mpr hlen, hcol, hc, hhu]
  · intro rd rest xs rv r q h hu hc hlen hq hrv hrn hfl hle
    have hq2 : pyNumVal (xs[nowHour]?.getD JValue.null) = some q := by
      simpa using hq
    have hge : pyGE (xs[nowHour]?.getD JValue.null) r = some false := by
      simp [pyGE, hq2, hle]
    simp only [is_rate_limited, h, hu, hrv]
    simp [isNull, pyEq, pyNumVal, jvalEq, hne _ hrn, hfl, hge,
      Nat.not_le.mpr hlen, hcol, hc, hhu]
  · intro rd rest xs h hu hc hlen hr
    simp only [is_rate_limited, h, hu]
    simp [isNull, pyEq, pyNumVal, jvalEq, hhu, hcol, hc,
      Nat.not_le.mpr hlen, hr]

/-- C2 witness: the characterization applied at concrete inputs — a missing
period, a storage failure, an over-quota hourly spend, and an Hourly config
whose rate threshold is null. -/
theorem c2_is_rate_limited_witness :
    is_rate_limited [] (.ok []) 0 =
      (false, "Rate limit period is not specified in the rate_limit data") ∧
    is_rate_limited [("period", .str "Daily"), ("rate", .num 5)] (.error .boto3) 0 =
      (false, "Error accessing DynamoDB for rate limit check") ∧
    is_rate_limited [("period", .str "Hourly"), ("rate", .num 5)]
        (.ok [[("hourlyCost", .arr [.num 1, .num 6])]]) 1 =
      (true, "rate limit exceeded ($" ++ fmt2 5 ++ "/" ++ "Hourly" ++ ")") ∧
    is_rate_limited [("period", .str "Hourly"), ("rate", .null)]
        (.ok [[("hourlyCost", .arr [.num 1, .num 6])]]) 1 =
      (false, "Rate value missing in rate_limit.") := by
  refine ⟨?_, ?_, ?_, ?_⟩
  · exact (c2_is_rate_limited_characterization [] (.ok []) 0).1 rfl
  · exact (c2_is_rate_limited_characterization _ _ 0).2.2.1 "Daily" rfl
      (by decide) rfl
  · exact (c2_is_rate_limited_characterization _ _ 1).2.2.2.2.2.2.2.2.2.2.2.1
      [("hourlyCost", JValue.arr [.num 1, .num 6])] [] [JValue.num 1, JValue.num 6]
      (JValue.num 5) 5 6 rfl rfl rfl (by decide) rfl rfl nofun rfl (by decide)
  · exact (c2_is_rate_limited_characterization _ _ 1).2.2.2.2.2.2.2.2.2.2.2.2.2
      [("hourlyCost", JValue.arr [.num 1, .num 6])] [] [JValue.num 1, JValue.num 6]
      rfl rfl rfl (by decide) rfl

/-- C4 witness: the theorem applied at concrete header maps — a
whitespace-only Bearer value fails, a case-folded good header succeeds. -/
theorem c4_parse_token_witness :
    parse_token [("Authorization", "Bearer   ")] =
      .error (.http 401 "No Access Token Found") ∧
    parse_token [("AUTHORIZATION", "bEaReR tok123")] = .ok "tok123" := by
  constructor
  · exact (c4_parse_token_characterization
      [("Authorization", "Bearer   ")]).2.1 "Bearer   " ["Bearer"]
      (by decide) (by decide) (by decide)
  · exact (c4_parse_token_characterization
      [("AUTHORIZATION", "bEaReR tok123")]).2.2.2.1 "bEaReR tok123" "bEaReR" "tok123"
      (by decide) (by decide) (by decide)

/-- Whether a character belongs to the lowercase hex alphabet. -/
def isHexChar (c : Char) : Bool :=
  c.isDigit || ('a' ≤ c && c ≤ 'f')

/-- Rendered hex strings are twice as long as their byte strings. -/
theorem hexOfBytes_length (bs : List Nat) :
    (hexOfBytes bs).length = 2 * bs.length := by
  induction bs with
  | nil => rfl
  | cons b rest ih =>
    show (hexByte b ++ hexOfBytes rest).length = 2 * (rest.length + 1)
    rw [String.length_append, ih]
    show 2 + 2 * rest.length = 2 * (rest.length + 1)
    omega

/-- Every character the hex alphabet produces is a hex digit. -/
theorem hexDigitChar_isHexChar (n : Nat) : isHexChar (hexDigitChar n) = true := by
  rcases Nat.lt_or_ge n 16 with h | h
  · interval_cases n <;> decide
  · show isHexChar ("0123456789abcdef".toList.getD n '0') = true
    rw [List.getD_eq_default]
    · decide
    · simpa using h

/-- Characters of a rendered hex string are hex digits. -/
theorem hexOfBytes_chars (bs : List Nat) :
    ∀ c ∈ (hexOfBytes bs).toList, isHexChar c = true := by
  induction bs with
  | nil => intro c hc; simp [hexOfBytes] at hc
  | cons b rest ih =>
    intro c hc
    show isHexChar c = true
    have : (hexByte b ++ hexOfBytes rest).toList =
        (hexByte b).toList ++ (hexOfBytes rest).toList := by
      simp
    rw [hexOfBytes] at hc
    rw [this] at hc
    rcases List.mem_append.mp hc with h | h
    · have : c = hexDigitChar (b / 16 % 16) ∨ c = hexDigitChar (b % 16) := by
        simpa [hexByte] using h
      rcases this with rfl | rfl <;> exact hexDigitChar_isHexChar _
    · exact ih c h

/-- The digest has exactly 64 bytes. -/
theorem shake256bytes64_length (msg : List Nat) :
    (shake256bytes64 msg).length = 64 := by
  simp [shake256bytes64]

/-- The hex digest has exactly 128 characters. -/
theorem shake256hexdigest64_length (msg : List Nat) :
    (shake256hexdigest64 msg).length = 128 := by
  rw [shake256hexdigest64, hexOfBytes_length, shake256bytes64_length]

/-- C9: for every string starting with amp-, the TokenV1 constructor
succeeds, the stored key is the shake_256 hex digest (128 hex characters) of
the raw key with the empty salt, and validate round-trips; a freshly
generated token also validates its own raw key; a non-string argument raises
TypeError and a nonempty key without the amp- marker raises ValueError. -/
theorem c9_tokenv1_characterization (k fresh : String) (v : JValue) :
    (strStartsWith k "amp-" = true →
      TokenV1.make (.str k) fresh =
        .ok ⟨k, shake256hexdigest64 (utf8Bytes k), ""⟩)
    ∧ (∀ t, TokenV1.make (.str k) fresh = .ok t → strStartsWith k "amp-" = true →
        t.key = shake256hexdigest64 (utf8Bytes k) ∧
        t.key.length = 128 ∧
        (∀ c ∈ t.key.toList, isHexChar c = true) ∧
        t.validate k = true)
    ∧ (∀ t, TokenV1.make (.str "") fresh = .ok t → t.validate t.rawKey = true)
    ∧ ((∀ s, v ≠ .str s) →
        TokenV1.make v fresh = .error (.typeError "Key must be a string."))
    ∧ (k ≠ "" → strStartsWith k "amp-" = false →
        TokenV1.make (.str k) fresh =
          .error (.valueError "TokenV1 key must start with \x27amp-\x27.")) := by
  have hsalt : ∀ s : String, TokenV1.keyGenerator s "" =
      shake256hexdigest64 (utf8Bytes s) := by
    intro s
    show shake256hexdigest64 (utf8Bytes s ++ utf8Bytes "") = _
    simp [utf8Bytes, utf8BytesAux]
  have hnonempty : strStartsWith k "amp-" = true → k ≠ "" := by
    intro h he
    subst he
    simp [strStartsWith] at h
  refine ⟨?_, ?_, ?_, ?_, ?_⟩
  · intro h
    simp [TokenV1.make, hnonempty h, h, hsalt]
  · intro t ht h
    have := hnonempty h
    rw [TokenV1.make] at ht
    simp [this, h] at ht
    subst ht
    refine ⟨hsalt k, ?_, ?_, ?_⟩
    · rw [hsalt k, shake256hexdigest64_length]
    · rw [hsalt k, shake256hexdigest64]
      exact hexOfBytes_chars _
    · simp [TokenV1.validate]
  · intro t ht
    rw [TokenV1.make] at ht
    simp at ht
    subst ht
    simp [TokenV1.validate]
  · intro h
    cases v with
    | str s => exact absurd rfl (h s)
    | null => rfl
    | bool b => rfl
    | num q => rfl
    | arr xs => rfl
    | obj fs => rfl
  · intro hne hpre
    simp [TokenV1.make, hne, hpre]

/-- Reading back the key just written. -/
theorem dictGet_dictSet_self (d : PyDict) (k : String) (v : JValue) :
    dictGet (dictSet d k v) k = some v := by
  induction d with
  | nil => simp [dictSet, dictGet]
  | cons kv rest ih =>
    by_cases h : kv.1 = k
    · simp [dictSet, dictGet, h]
    · simp only [dictSet, dictGet]
      rw [if_neg (by simpa using h)]
      simpa [dictGet, h] using ih

/-- Reading a different key after a write. -/
theorem dictGet_dictSet_ne (d : PyDict) (k k2 : String) (v : JValue)
    (h : k2 ≠ k) : dictGet (dictSet d k v) k2 = dictGet d k2 := by
  induction d with
  | nil => simp [dictSet, dictGet, h, Ne.symm h]
  | cons kv rest ih =>
    by_cases hk : kv.1 = k
    · simp [dictSet, dictGet, hk, h, Ne.symm h]
    · simp only [dictSet, dictGet]
      rw [if_neg (by simpa using hk)]
      by_cases h2 : kv.1 = k2
      · simp [dictGet, h2]
      · simpa [dictGet, h2] using ih

/-- A sub-record whose isDefault flag is present and falsy. -/
def nonDefaultRecord (a : JValue) : Prop :=
  ∃ ao d, a = .obj ao ∧ dictGet ao "isDefault" = some d ∧ pyTruthy d = false

/-- Scanning non-default sub-records changes nothing. -/
theorem scanAccounts_no_default (accts : List JValue) (acc rl : JValue)
    (h : ∀ a ∈ accts, nonDefaultRecord a) :
    scanAccounts accts acc rl = .ok (acc, rl) := by
  induction accts with
  | nil => rfl
  | cons a rest ih =>
    obtain ⟨ao, d, rfl, hd, hft⟩ := h a (List.mem_cons_self a rest)
    simp only [scanAccounts, pyIndex, hd, hft]
    exact ih (fun a ha => h a (List.mem_cons_of_mem _ ha))

/-- Scanning skips a non-default leading segment. -/
theorem scanAccounts_append (l1 l2 : List JValue) (acc rl : JValue)
    (h : ∀ a ∈ l1, nonDefaultRecord a) :
    scanAccounts (l1 ++ l2) acc rl = scanAccounts l2 acc rl := by
  induction l1 with
  | nil => rfl
  | cons a rest ih =>
    obtain ⟨ao, d, rfl, hd, hft⟩ := h a (List.mem_cons_self a rest)
    simp only [List.cons_append, scanAccounts, pyIndex, hd, hft]
    exact ih (fun a ha => h a (List.mem_cons_of_mem _ ha))

/-- C6: for a resolved JWT principal, when no account sub-record is flagged
default, get_claims falls back to the general_account id and the
no-rate-limit config; when exactly one sub-record is flagged default, its id
becomes the account and its rateLimit is adopted when it carries one (a
truthy value), the no-rate-limit config otherwise; the returned claims carry
allowed_access = [full_access] in both cases. -/
theorem c6_get_claims_account_defaulting (env : JwtEnv) (token : String)
    (jo ho : PyDict) (keys : List JValue) (rk : JValue) (payload : PyDict)
    (user0 : String) (accts : List JValue)
    (hok : env.jwksOk = true)
    (hjson : env.jwksJson = some (.obj jo))
    (hkeys : pyGetD jo "keys" (.arr []) = .arr keys)
    (hheader : env.headerRes = .ok (.obj ho))
    (hrsa : findRsaKey keys (pyGet ho "kid") = .ok (some rk))
    (hrkt : pyTruthy rk = true)
    (hdec : env.decodeRes = .ok payload)
    (huser : dictGet payload "username" = some (.str user0))
    (haccts : accountRecords env = .arr accts) :
    ((∀ a ∈ accts, nonDefaultRecord a) →
      ∃ res, get_claims env (some token) = .ok res ∧
        dictGet res "account" = some (.str "general_account") ∧
        dictGet res "rate_limit" = some NO_RATE_LIMIT ∧
        dictGet res "allowed_access" = some (.arr [.str "full_access"]))
    ∧ (∀ l1 l2 ao dv idv, accts = l1 ++ .obj ao :: l2 →
        (∀ a ∈ l1, nonDefaultRecord a) → (∀ a ∈ l2, nonDefaultRecord a) →
        dictGet ao "isDefault" = some dv → pyTruthy dv = true →
        dictGet ao "id" = some idv → pyTruthy idv = true →
        ∃ res, get_claims env (some token) = .ok res ∧
          dictGet res "account" = some idv ∧
          dictGet res "rate_limit" =
            some (if pyTruthy (pyGet ao "rateLimit") then pyGet ao "rateLimit"
                  else NO_RATE_LIMIT) ∧
          dictGet res "allowed_access" = some (.arr [.str "full_access"])) := by
  have hread : ∀ a r : JValue,
      dictGet (dictSet (dictSet (dictSet (dictSet payload "account" a)
          "rate_limit" r) "username"
          (.str (if (strLower env.idpPref).length > 0 &&
              strStartsWith user0 (strLower env.idpPref ++ "_") then
            strDrop user0 (strLower env.idpPref ++ "_").length else user0)))
          "allowed_access" (.arr [.str "full_access"])) "account" = some a ∧
      dictGet (dictSet (dictSet (dictSet (dictSet payload "account" a)
          "rate_limit" r) "username"
          (.str (if (strLower env.idpPref).length > 0 &&
              strStartsWith user0 (strLower env.idpPref ++ "_") then
            strDrop user0 (strLower env.idpPref ++ "_").length else user0)))
          "allowed_access" (.arr [.str "full_access"])) "rate_limit" = some r ∧
      dictGet (dictSet (dictSet (dictSet (dictSet payload "account" a)
          "rate_limit" r) "username"
          (.str (if (strLower env.idpPref).length > 0 &&
              strStartsWith user0 (strLower env.idpPref ++ "_") then
            strDrop user0 (strLower env.idpPref ++ "_").length else user0)))
          "allowed_access" (.arr [.str "full_access"])) "allowed_access" =
        some (.arr [.str "full_access"]) := by
    intro a r
    refine ⟨?_, ?_, ?_⟩
    · rw [dictGet_dictSet_ne _ _ _ _ (by decide),
        dictGet_dictSet_ne _ _ _ _ (by decide),
        dictGet_dictSet_ne _ _ _ _ (by decide), dictGet_dictSet_self]
    · rw [dictGet_dictSet_ne _ _ _ _ (by decide),
        dictGet_dictSet_ne _ _ _ _ (by decide), dictGet_dictSet_self]
    · rw [dictGet_dictSet_self]
  constructor
  · intro hnd
    refine ⟨_, ?_, (hread _ _).1, (hread _ _).2.1, (hread _ _).2.2⟩
    simp only [get_claims, hok, hjson, hheader, hkeys, hdec, pyIndex, huser,
      haccts, Bool.not_true, scanAccounts_no_default accts .null NO_RATE_LIMIT hnd,
      hrsa, hrkt]
    rfl
  · intro l1 l2 ao dv idv hsplit h1 h2 hdv hdvt hid hidt
    have hscan : scanAccounts accts .null NO_RATE_LIMIT =
        .ok (idv, if pyTruthy (pyGet ao "rateLimit") then pyGet ao "rateLimit"
          else NO_RATE_LIMIT) := by
      rw [hsplit, scanAccounts_append l1 _ _ _ h1]
      simp only [scanAccounts, pyIndex, hdv, hdvt, hid]
      exact scanAccounts_no_default l2 _ _ h2
    refine ⟨_, ?_, (hread _ _).1, (hread _ _).2.1, (hread _ _).2.2⟩
    simp only [get_claims, hok, hjson, hheader, hkeys, hdec, pyIndex, huser,
      haccts, hscan, hrsa, hrkt, Bool.not_true, hidt]
    rfl

/-- A concrete JWT environment with no account record, for the C6 witness. -/
def c6EnvNoDefault : JwtEnv :=
  { issuerUrl := "https://i", jwksOk := true, jwksStatus := 200,
    jwksJson := some (.obj [("keys", .arr [.obj [("kid", .str "k1")]])]),
    headerRes := .ok (.obj [("kid", .str "k1")]),
    decodeRes := .ok [("username", .str "u@x")],
    accountItem := none, idpPref := "" }

/-- A concrete JWT environment with one default account sub-record carrying
its own rate limit, for the C6 witness. -/
def c6EnvDefault : JwtEnv :=
  { issuerUrl := "https://i", jwksOk := true, jwksStatus := 200,
    jwksJson := some (.obj [("keys", .arr [.obj [("kid", .str "k1")]])]),
    headerRes := .ok (.obj [("kid", .str "k1")]),
    decodeRes := .ok [("username", .str "u@x")],
    accountItem := some [("accounts", .arr [.obj
      [("id", .str "acct9"), ("isDefault", .bool true),
       ("rateLimit", .obj [("period", .str "Daily"), ("rate", .num 7)])]])],
    idpPref := "" }

/-- C6 witness: the theorem applied at a concrete environment, once with no
default sub-record and once with a unique default carrying a rate limit. -/
theorem c6_get_claims_witness :
    (∃ res, get_claims c6EnvNoDefault (some "tok") = .ok res ∧
      dictGet res "account" = some (.str "general_account") ∧
      dictGet res "rate_limit" = some NO_RATE_LIMIT ∧
      dictGet res "allowed_access" = some (.arr [.str "full_access"])) ∧
    (∃ res, get_claims c6EnvDefault (some "tok") = .ok res ∧
      dictGet res "account" = some (.str "acct9") ∧
      dictGet res "rate_limit" =
        some (.obj [("period", .str "Daily"), ("rate", .num 7)]) ∧
      dictGet res "allowed_access" = some (.arr [.str "full_access"])) := by
  constructor
  · exact (c6_get_claims_account_defaulting c6EnvNoDefault "tok"
      [("keys", .arr [.obj [("kid", .str "k1")]])] [("kid", .str "k1")]
      [.obj [("kid", .str "k1")]] (.obj [("kid", .str "k1")])
      [("username", .str "u@x")] "u@x" []
      rfl rfl rfl rfl rfl rfl rfl rfl rfl).1 (by intro a ha; cases ha)
  · have h := (c6_get_claims_account_defaulting c6EnvDefault "tok"
      [("keys", .arr [.obj [("kid", .str "k1")]])] [("kid", .str "k1")]
      [.obj [("kid", .str "k1")]] (.obj [("kid", .str "k1")])
      [("username", .str "u@x")] "u@x"
      [.obj [("id", .str "acct9"), ("isDefault", .bool true),
        ("rateLimit", .obj [("period", .str "Daily"), ("rate", .num 7)])]]
      rfl rfl rfl rfl rfl rfl rfl rfl rfl).2 [] []
      [("id", .str "acct9"), ("isDefault", .bool true),
        ("rateLimit", .obj [("period", .str "Daily"), ("rate", .num 7)])]
      (.bool true) (.str "acct9") rfl
      (by intro a ha; cases ha) (by intro a ha; cases ha) rfl rfl rfl rfl
    simpa using h

/-- C3: api_claims fails with exactly LookupError when no registry record
matches the (raw or digest) lookup value; PermissionError when the record is
inactive, expired at or before the current date, or has no access-type
intersection with the accepted set; UnknownApiUserException when the key
kind in api_owner_id is unrecognized or the identity field is missing or
non-string (a constructor distinct from the others); and Unauthorized (401)
when the rate limiter reports the principal limited — each case requiring
exactly the earlier checks to have passed, which is the claimed order. -/
theorem c3_api_claims_error_taxonomy (env : ApiEnv) (token lv : String)
    (hlv : apiLookupValue token = .ok lv) :
    (env.registryQuery lv = [] →
      (api_claims env token).result = .error (.lookup "API key not found."))
    ∧ (∀ item rest, env.registryQuery lv = item :: rest →
        pyTruthy (pyGetD item "active" (.bool false)) = false →
        (api_claims env token).result =
          .error (.permission "API key is inactive."))
    ∧ (∀ item rest, env.registryQuery lv = item :: rest →
        pyTruthy (pyGetD item "active" (.bool false)) = true →
        expiryCheck item env.nowDate = .ok true →
        (api_claims env token).result =
          .error (.permission "API key has expired."))
    ∧ (∀ item rest, env.registryQuery lv = item :: rest →
        pyTruthy (pyGetD item "active" (.bool false)) = true →
        expiryCheck item env.nowDate = .ok false →
        anyAccess env.accessTypes (pyGetD item "accessTypes" (.arr [])) =
          .ok false →
        (api_claims env token).result = .error
          (.permission "API key does not have access to the required functionality."))
    ∧ (∀ item rest m, env.registryQuery lv = item :: rest →
        pyTruthy (pyGetD item "active" (.bool false)) = true →
        expiryCheck item env.nowDate = .ok false →
        anyAccess env.accessTypes (pyGetD item "accessTypes" (.arr [])) =
          .ok true →
        determine_api_user item = .error (.unknownApiUser m) →
        (api_claims env token).result = .error (.unknownApiUser m))
    ∧ (∀ item rest u o, env.registryQuery lv = item :: rest →
        pyTruthy (pyGetD item "active" (.bool false)) = true →
        expiryCheck item env.nowDate = .ok false →
        anyAccess env.accessTypes (pyGetD item "accessTypes" (.arr [])) =
          .ok true →
        determine_api_user item = .ok u →
        pyGetD item "rateLimit" (.obj []) = .obj o →
        (is_rate_limited o (env.usageQuery u) env.nowHour).1 = true →
        (api_claims env token).result = .error
          (.http 401 (is_rate_limited o (env.usageQuery u) env.nowHour).2))
    ∧ (∀ item rest u o aoid accO accId,
        env.registryQuery lv = item :: rest →
        pyTruthy (pyGetD item "active" (.bool false)) = true →
        expiryCheck item env.nowDate = .ok false →
        anyAccess env.accessTypes (pyGetD item "accessTypes" (.arr [])) =
          .ok true →
        determine_api_user item = .ok u →
        pyGetD item "rateLimit" (.obj []) = .obj o →
        (is_rate_limited o (env.usageQuery u) env.nowHour).1 = false →
        dictGet item "api_owner_id" = some aoid →
        dictGet item "account" = some (.obj accO) →
        dictGet accO "id" = some accId →
        (api_claims env token).result = .ok
          [("username", .str u), ("account", accId),
           ("allowed_access", pyGetD item "accessTypes" (.arr [])),
           ("rate_limit", pyGetD item "rateLimit" (.obj [])),
           ("api_key_id", aoid), ("purpose", pyGet item "purpose")]) := by
  refine ⟨?_, ?_, ?_, ?_, ?_, ?_, ?_⟩
  · intro hq
    simp [api_claims, hlv, hq]
  · intro item rest hq hact
    simp [api_claims, hlv, hq, hact]
  · intro item rest hq hact hexp
    simp [api_claims, hlv, hq, hact, hexp]
  · intro item rest hq hact hexp hacc
    simp [api_claims, hlv, hq, hact, hexp, hacc]
  · intro item rest m hq hact hexp hacc hdet
    simp [api_claims, hlv, hq, hact, hexp, hacc, hdet]
  · intro item rest u o hq hact hexp hacc hdet hrl hlim
    simp only [api_claims, hlv, hq, hact, hexp, hacc, hdet, hrl, Bool.not_true]
    simp [hlim]
  · intro item rest u o aoid accO accId hq hact hexp hacc hdet hrl hlim haoid
      haccount hid
    simp only [api_claims, hlv, hq, hact, hexp, hacc, hdet, hrl, Bool.not_true]
    simp [hlim, pyIndex, haoid, haccount, pyIndexV, hid, hrl]

/-- A concrete registry record for the C3 and C8 witnesses: active,
unexpired, with chat access and no rate limit. -/
def c3Item : PyDict :=
  [("apiKey", .str "h"), ("active", .bool true),
   ("accessTypes", .arr [.str "chat"]),
   ("api_owner_id", .str "u@x/ownerKey/1"), ("owner", .str "u@x"),
   ("account", .obj [("id", .str "a1")])]

/-- A concrete API environment for the C3 and C8 witnesses. -/
def c3Env : ApiEnv :=
  { registryQuery := fun _ => [c3Item], nowDate := (2026, 10, 12), nowHour := 0,
    usageQuery := fun _ => .ok [], accessTypes := ["chat"] }

/-- The same environment with an empty registry. -/
def c3EnvEmpty : ApiEnv :=
  { registryQuery := fun _ => [], nowDate := (2026, 10, 12), nowHour := 0,
    usageQuery := fun _ => .ok [], accessTypes := ["chat"] }

/-- C3 witness: the taxonomy applied at a concrete environment — an unknown
key yields LookupError, and the full success path yields the claims dict. -/
theorem c3_api_claims_witness :
    (api_claims c3EnvEmpty "raw-key").result =
      .error (.lookup "API key not found.") ∧
    (api_claims c3Env "raw-key").result = .ok
      [("username", .str "u@x"), ("account", .str "a1"),
       ("allowed_access", .arr [.str "chat"]),
       ("rate_limit", .obj []),
       ("api_key_id", .str "u@x/ownerKey/1"),
       ("purpose", .null)] := by
  constructor
  · exact (c3_api_claims_error_taxonomy c3EnvEmpty "raw-key" "raw-key" rfl).1 rfl
  · exact (c3_api_claims_error_taxonomy c3Env "raw-key" "raw-key" rfl).2.2.2.2.2.2
      c3Item [] "u@x" [] (.str "u@x/ownerKey/1")
      [("id", .str "a1")] (.str "a1")
      rfl rfl rfl rfl rfl rfl rfl rfl rfl rfl

/-- Whether an exception is one of the four typed failures of the API-key
resolution path: LookupError, PermissionError, UnknownApiUserException or an
HTTPException such as the rate-limit Unauthorized. -/
def typedAuthFailure : Exc → Bool
  | .lookup _ => true
  | .permission _ => true
  | .unknownApiUser _ => true
  | .http _ _ => true
  | _ => false

/-- Every run of api_claims either fails before the lastAccessed touch with
an empty write list, or performs exactly the touch after all six checks have
passed, after which only the (non-auth-typed) dict-assembly errors can still
occur. -/
theorem api_claims_cases (env : ApiEnv) (token : String) :
    (∃ e, api_claims env token = ⟨.error e, []⟩)
    ∨ (∃ lv item rest u o aoid,
        apiLookupValue token = .ok lv ∧
        env.registryQuery lv = item :: rest ∧
        pyTruthy (pyGetD item "active" (.bool false)) = true ∧
        expiryCheck item env.nowDate = .ok false ∧
        anyAccess env.accessTypes (pyGetD item "accessTypes" (.arr [])) =
          .ok true ∧
        determine_api_user item = .ok u ∧
        pyGetD item "rateLimit" (.obj []) = .obj o ∧
        (is_rate_limited o (env.usageQuery u) env.nowHour).1 = false ∧
        dictGet item "api_owner_id" = some aoid ∧
        (api_claims env token).touched = [aoid] ∧
        ((∃ d, (api_claims env token).result = .ok d ∧
            dictGet d "api_key_id" = some aoid) ∨
         (∃ e, (api_claims env token).result = .error e ∧
            typedAuthFailure e = false))) := by
  cases hlv : apiLookupValue token with
  | error e => exact .inl ⟨e, by simp [api_claims, hlv]⟩
  | ok lv =>
  cases hq : env.registryQuery lv with
  | nil => exact .inl ⟨.lookup "API key not found.", by simp [api_claims, hlv, hq]⟩
  | cons item rest =>
  cases hact : pyTruthy (pyGetD item "active" (.bool false)) with
  | false =>
    exact .inl ⟨.permission "API key is inactive.",
      by simp [api_claims, hlv, hq, hact]⟩
  | true =>
  cases hexp : expiryCheck item env.nowDate with
  | error e => exact .inl ⟨e, by simp [api_claims, hlv, hq, hact, hexp]⟩
  | ok expired =>
  cases expired with
  | true =>
    exact .inl ⟨.permission "API key has expired.",
      by simp [api_claims, hlv, hq, hact, hexp]⟩
  | false =>
  cases hacc : anyAccess env.accessTypes (pyGetD item "accessTypes" (.arr [])) with
  | error e => exact .inl ⟨e, by simp [api_claims, hlv, hq, hact, hexp, hacc]⟩
  | ok allowed =>
  cases allowed with
  | false =>
    exact .inl ⟨.permission "API key does not have access to the required functionality.",
      by simp [api_claims, hlv, hq, hact, hexp, hacc]⟩
  | true =>
  cases hdet : determine_api_user item with
  | error e =>
    exact .inl ⟨e, by simp [api_claims, hlv, hq, hact, hexp, hacc, hdet]⟩
  | ok u =>
  have hnotobj : ∀ rl : JValue, pyGetD item "rateLimit" (.obj []) = rl →
      (∀ o, rl ≠ .obj o) → api_claims env token =
        ⟨.error (.attributeError "value has no attribute get"), []⟩ := by
    intro rl hrl hno
    cases rl with
    | obj o => exact absurd rfl (hno o)
    | null => simp [api_claims, hlv, hq, hact, hexp, hacc, hdet, hrl]
    | bool b => simp [api_claims, hlv, hq, hact, hexp, hacc, hdet, hrl]
    | num q => simp [api_claims, hlv, hq, hact, hexp, hacc, hdet, hrl]
    | str s => simp [api_claims, hlv, hq, hact, hexp, hacc, hdet, hrl]
    | arr xs => simp [api_claims, hlv, hq, hact, hexp, hacc, hdet, hrl]
  cases hrlv : pyGetD item "rateLimit" (.obj []) with
  | null => exact .inl ⟨_, hnotobj _ hrlv nofun⟩
  | bool b => exact .inl ⟨_, hnotobj _ hrlv nofun⟩
  | num q => exact .inl ⟨_, hnotobj _ hrlv nofun⟩
  | str s => exact .inl ⟨_, hnotobj _ hrlv nofun⟩
  | arr xs => exact .inl ⟨_, hnotobj _ hrlv nofun⟩
  | obj o =>
  cases hlim : (is_rate_limited o (env.usageQuery u) env.nowHour).1 with
  | true =>
    refine .inl ⟨.http 401 (is_rate_limited o (env.usageQuery u) env.nowHour).2, ?_⟩
    simp only [api_claims, hlv, hq, hact, hexp, hacc, hdet, hrlv, Bool.not_true]
    simp [hlim]
  | false =>
  cases haoid : dictGet item "api_owner_id" with
  | none =>
    refine .inl ⟨.keyError "api_owner_id", ?_⟩
    simp only [api_claims, hlv, hq, hact, hexp, hacc, hdet, hrlv, Bool.not_true]
    simp [hlim, pyIndex, haoid]
  | some aoid =>
  refine .inr ⟨lv, item, rest, u, o, aoid, rfl, hq, hact, hexp, hacc, hdet,
    hrlv, hlim, haoid, ?_, ?_⟩
  · simp only [api_claims, hlv, hq, hact, hexp, hacc, hdet, hrlv, Bool.not_true]
    simp [hlim, pyIndex, haoid]
  · cases hacct : dictGet item "account" with
    | none =>
      refine .inr ⟨.keyError "account", ?_, rfl⟩
      simp only [api_claims, hlv, hq, hact, hexp, hacc, hdet, hrlv, Bool.not_true]
      simp [hlim, pyIndex, haoid, hacct]
    | some accV =>
      have hnotobj2 : (∀ accO2, accV ≠ .obj accO2) →
          (api_claims env token).result =
            .error (.typeError "value is not subscriptable with a string key") := by
        intro hne
        cases accV with
        | obj o2 => exact absurd rfl (hne o2)
        | null =>
          simp only [api_claims, hlv, hq, hact, hexp, hacc, hdet, hrlv,
            Bool.not_true]
          simp [hlim, pyIndex, haoid, hacct, pyIndexV]
        | bool b =>
          simp only [api_claims, hlv, hq, hact, hexp, hacc, hdet, hrlv,
            Bool.not_true]
          simp [hlim, pyIndex, haoid, hacct, pyIndexV]
        | num q =>
          simp only [api_claims, hlv, hq, hact, hexp, hacc, hdet, hrlv,
            Bool.not_true]
          simp [hlim, pyIndex, haoid, hacct, pyIndexV]
        | str s =>
          simp only [api_claims, hlv, hq, hact, hexp, hacc, hdet, hrlv,
            Bool.not_true]
          simp [hlim, pyIndex, haoid, hacct, pyIndexV]
        | arr xs =>
          simp only [api_claims, hlv, hq, hact, hexp, hacc, hdet, hrlv,
            Bool.not_true]
          simp [hlim, pyIndex, haoid, hacct, pyIndexV]
      cases accV with
      | null => exact .inr ⟨_, hnotobj2 nofun, rfl⟩
      | bool b => exact .inr ⟨_, hnotobj2 nofun, rfl⟩
      | num q => exact .inr ⟨_, hnotobj2 nofun, rfl⟩
      | str s => exact .inr ⟨_, hnotobj2 nofun, rfl⟩
      | arr xs => exact .inr ⟨_, hnotobj2 nofun, rfl⟩
      | obj accO =>
        cases hid : dictGet accO "id" with
        | none =>
          refine .inr ⟨.keyError "id", ?_, rfl⟩
          simp only [api_claims, hlv, hq, hact, hexp, hacc, hdet, hrlv,
            Bool.not_true]
          simp [hlim, pyIndex, haoid, hacct, pyIndexV, hid]
        | some accId =>
          refine .inl ⟨[("username", .str u), ("account", accId),
            ("allowed_access", pyGetD item "accessTypes" (.arr [])),
            ("rate_limit", pyGetD item "rateLimit" (.obj [])),
            ("api_key_id", aoid), ("purpose", pyGet item "purpose")], ?_, ?_⟩
          · simp only [api_claims, hlv, hq, hact, hexp, hacc, hdet, hrlv,
              Bool.not_true]
            simp [hlim, pyIndex, haoid, hacct, pyIndexV, hid]
          · simp [dictGet]

/-- C8: api_claims writes to the registry only the lastAccessed touch, and
only after every check has passed; on every typed failure path (LookupError,
PermissionError, UnknownApiUserException, rate-limit Unauthorized) no write
is performed; a successful call performs exactly one touch, keyed by the
record api_owner_id it returns as api_key_id. -/
theorem c8_api_claims_write_discipline (env : ApiEnv) (token : String) :
    (∀ e, (api_claims env token).result = .error e → typedAuthFailure e = true →
      (api_claims env token).touched = [])
    ∧ (api_claims env token).touched.length ≤ 1
    ∧ (∀ d, (api_claims env token).result = .ok d →
        ∃ aoid, (api_claims env token).touched = [aoid] ∧
          dictGet d "api_key_id" = some aoid)
    ∧ ((api_claims env token).touched ≠ [] → ∃ lv item rest u o,
        apiLookupValue token = .ok lv ∧
        env.registryQuery lv = item :: rest ∧
        pyTruthy (pyGetD item "active" (.bool false)) = true ∧
        expiryCheck item env.nowDate = .ok false ∧
        anyAccess env.accessTypes (pyGetD item "accessTypes" (.arr [])) =
          .ok true ∧
        determine_api_user item = .ok u ∧
        pyGetD item "rateLimit" (.obj []) = .obj o ∧
        (is_rate_limited o (env.usageQuery u) env.nowHour).1 = false) := by
  rcases api_claims_cases env token with ⟨e0, he⟩ |
    ⟨lv, item, rest, u, o, aoid, hlv, hq, hact, hexp, hacc, hdet, hrlv, hlim,
      haoid, htouch, hres⟩
  · refine ⟨?_, ?_, ?_, ?_⟩
    · intro e _ _
      rw [he]
    · rw [he]
      simp
    · intro d hd
      rw [he] at hd
      cases hd
    · intro hne
      rw [he] at hne
      exact absurd rfl hne
  · refine ⟨?_, ?_, ?_, ?_⟩
    · intro e h hk
      rcases hres with ⟨d, hd, _⟩ | ⟨e2, he2, hfalse⟩
      · rw [h] at hd
        cases hd
      · rw [h] at he2
        injection he2 with h3
        rw [h3] at hk
        rw [hk] at hfalse
        cases hfalse
    · rw [htouch]
      simp
    · intro d hd
      rcases hres with ⟨d2, hd2, hget⟩ | ⟨e2, he2, _⟩
      · rw [hd] at hd2
        injection hd2 with h3
        exact ⟨aoid, htouch, h3 ▸ hget⟩
      · rw [hd] at he2
        cases he2
    · intro _
      exact ⟨lv, item, rest, u, o, hlv, hq, hact, hexp, hacc, hdet, hrlv, hlim⟩

/-- C8 witness: at the concrete environment of the C3 witness, the inactive
variant performs no write while the success path touches exactly the record
api_owner_id. -/
theorem c8_api_claims_witness :
    (api_claims c3EnvEmpty "raw-key").touched = [] ∧
    (api_claims c3Env "raw-key").touched.length ≤ 1 ∧
    (∃ aoid, (api_claims c3Env "raw-key").touched = [aoid] ∧
      dictGet
        [("username", .str "u@x"), ("account", .str "a1"),
         ("allowed_access", .arr [.str "chat"]),
         ("rate_limit", .obj []),
         ("api_key_id", .str "u@x/ownerKey/1"),
         ("purpose", .null)] "api_key_id" = some aoid) := by
  refine ⟨?_, ?_, ?_⟩
  · exact (c8_api_claims_write_discipline c3EnvEmpty "raw-key").1
      (.lookup "API key not found.") rfl rfl
  · exact (c8_api_claims_write_discipline c3Env "raw-key").2.1
  · exact (c8_api_claims_write_discipline c3Env "raw-key").2.2.1
      [("username", .str "u@x"), ("account", .str "a1"),
       ("allowed_access", .arr [.str "chat"]),
       ("rate_limit", .obj []),
       ("api_key_id", .str "u@x/ownerKey/1"),
       ("purpose", .null)] rfl

/-- A successful _parse_and_validate run determines its stages: the resolved
name is truthy, the body parsed to the returned data, and validation
passed. -/
theorem parse_and_validate_stages (env : Env) (u : JValue) (flds : PyDict)
    (op : String) (a : Bool) (rules : PyDict) (vb : Bool)
    (ck : Option PermChecker) (name data : JValue)
    (h : parse_and_validate env u flds op a rules vb ck = .ok (name, data)) :
    resolveName flds = .ok name ∧ bodyParse env flds = .ok data ∧
    pyTruthy name = true ∧
    validationStage env name op data a rules vb = .ok () := by
  unfold parse_and_validate at h
  cases hr : resolveName flds with
  | error e => rw [hr] at h; cases h
  | ok name2 =>
    rw [hr] at h
    cases hb : bodyParse env flds with
    | error e => rw [hb] at h; cases h
    | ok data2 =>
      rw [hb] at h
      cases ht : pyTruthy name2 with
      | false => simp [ht] at h
      | true =>
        simp only [ht, Bool.not_true, Bool.false_eq_true, if_false] at h
        cases hv : validationStage env name2 op data2 a rules vb with
        | error e => rw [hv] at h; cases h
        | ok _ =>
          rw [hv] at h
          cases hp : permissionStage ck u name2 op data2 with
          | error e => rw [hp] at h; cases h
          | ok _ =>
            rw [hp] at h
            cases h
            exact ⟨rfl, rfl, ht, hv⟩

/-- C7: with no permission checker configured the check is skipped and the
handler is invoked when the other stages pass; a checker (or its returned
callable) that raises NameError or TypeError is swallowed, making the run
equal to the checker-less run; and a returned callable that evaluates falsy
on (user, data) raises Unauthorized 401. -/
theorem c7_permission_checker (env : Env) (op : String) (validateBody : Bool)
    (f : Handler) (event : Event) (user name data rv : JValue)
    (pc : PermChecker) (g : JValue → JValue → Except Exc JValue) (e : Exc)
    (flds : PyDict) (a vb : Bool) (rules : PyDict) :
    (env.checker = none →
      ∀ token claims d7 r,
        parse_token event.headers = .ok token →
        (if strTake token 4 == "amp-" then (api_claims env.api token).result
         else get_claims env.jwt (some token)) = .ok claims →
        dictGet claims "username" = some user → isNull user = false →
        parse_and_validate env user event.fields op (strTake token 4 == "amp-")
          (match env.rules with | some r2 => r2 | none => []) validateBody
          none = .ok (name, data) →
        enrichData claims token (strTake token 4 == "amp-") data = .ok d7 →
        f event user name d7 = .ok r →
        validatedWrapper env op validateBody f event = .ok ⟨200, jsonDumps r⟩)
    ∧ (((∃ m, e = .nameError m) ∨ (∃ m, e = .typeError m)) →
        (∀ n d, pc user n op d = .error e) →
        parse_and_validate env user flds op a rules vb (some pc) =
          parse_and_validate env user flds op a rules vb none)
    ∧ (((∃ m, e = .nameError m) ∨ (∃ m, e = .typeError m)) →
        (∀ n d, pc user n op d = .ok g) → (∀ u2 d, g u2 d = .error e) →
        parse_and_validate env user flds op a rules vb (some pc) =
          parse_and_validate env user flds op a rules vb none)
    ∧ (parse_and_validate env user flds op a rules vb none = .ok (name, data) →
        pc user name op data = .ok g → g user data = .ok rv →
        pyTruthy rv = false →
        parse_and_validate env user flds op a rules vb (some pc) =
          .error (.http 401
            "User does not have permission to perform the operation.")) := by
  have hswallow : ∀ ck : Option PermChecker,
      (∀ n d, permissionStage ck user n op d = .ok ()) →
      parse_and_validate env user flds op a rules vb ck =
        parse_and_validate env user flds op a rules vb none := by
    intro ck hok
    unfold parse_and_validate
    cases hr : resolveName flds with
    | error e2 => rfl
    | ok name2 =>
      cases hb : bodyParse env flds with
      | error e2 => rfl
      | ok data2 =>
        cases ht : pyTruthy name2 with
        | false => simp [ht]
        | true =>
          simp only [ht, Bool.not_true, Bool.false_eq_true, if_false]
          cases hv : validationStage env name2 op data2 a rules vb with
          | error e2 => rfl
          | ok _ =>
            rw [hok name2 data2]
            rfl
  refine ⟨?_, ?_, ?_, ?_⟩
  · intro hck token claims d7 r hparse hclaims husr hnn hpv hen hf
    unfold validatedWrapper pipelineTry
    rw [hparse]
    simp only []
    rw [hclaims]
    simp only [pyIndex, husr, hnn, Bool.false_eq_true, if_false]
    rw [← hck] at hpv
    rw [hpv]
    simp only [hen, hf]
  · intro he hpc
    refine hswallow (some pc) ?_
    intro n d
    unfold permissionStage
    simp only [hpc n d]
    rcases he with ⟨m, rfl⟩ | ⟨m, rfl⟩ <;> rfl
  · intro he hpc hg
    refine hswallow (some pc) ?_
    intro n d
    unfold permissionStage
    simp only [hpc n d, hg user d]
    rcases he with ⟨m, rfl⟩ | ⟨m, rfl⟩ <;> rfl
  · intro hbase hpc hg hrv
    obtain ⟨hr, hb, ht, hv⟩ := parse_and_validate_stages env user flds op a
      rules vb none name data hbase
    unfold parse_and_validate
    rw [hr, hb]
    simp only [ht, Bool.not_true, Bool.false_eq_true, if_false]
    rw [hv]
    unfold permissionStage
    simp only [hpc, hg]
    simp [hrv]

/-- The pipeline environment of the C7 witness: a JWT caller, a rule table
whose matched schema is empty, and no permission checker. -/
def c7Env : Env :=
  { jwt := c6EnvNoDefault, api := c3EnvEmpty,
    jsonParse := fun _ => none, schemaCheck := fun _ _ => .pass,
    rules := some [("validators", .obj [("/p", .obj [("op", .obj [])])])],
    checker := none }

/-- The claims c7Env resolves for the witness token. -/
def c7Claims : PyDict :=
  [("username", .str "u@x"), ("account", .str "general_account"),
   ("rate_limit", .obj [("period", .str "Unlimited"), ("rate", .null)]),
   ("allowed_access", .arr [.str "full_access"])]

/-- The enriched data dict of the C7 witness run. -/
def c7Data : JValue :=
  .obj [("access_token", .str "jwtx"), ("account", .str "general_account"),
        ("api_key_id", .null),
        ("rate_limit", .obj [("period", .str "Unlimited"), ("rate", .null)]),
        ("api_accessed", .bool false),
        ("allowed_access", .arr [.str "full_access"]), ("purpose", .null)]

/-- C7 witness: with no checker the handler runs and the wrapper returns the
200 envelope; a checker raising NameError leaves the run equal to the
checker-less run; a checker whose callable returns False yields the 401. -/
theorem c7_permission_checker_witness :
    validatedWrapper c7Env "op" true (fun _ _ _ _ => .ok (.str "done"))
      ⟨[("Authorization", "Bearer jwtx")], [("path", .str "/p")]⟩ =
      .ok ⟨200, jsonDumps (.str "done")⟩ ∧
    parse_and_validate c7Env (.str "u@x") [("path", .str "/p")] "op" false
      [("validators", .obj [("/p", .obj [("op", .obj [])])])] true
      (some (fun _ _ _ _ => .error (.nameError "checker"))) =
      parse_and_validate c7Env (.str "u@x") [("path", .str "/p")] "op" false
        [("validators", .obj [("/p", .obj [("op", .obj [])])])] true none ∧
    parse_and_validate c7Env (.str "u@x") [("path", .str "/p")] "op" false
      [("validators", .obj [("/p", .obj [("op", .obj [])])])] true
      (some (fun _ _ _ _ => .ok (fun _ _ => .ok (.bool false)))) =
      .error (.http 401
        "User does not have permission to perform the operation.") := by
  refine ⟨?_, ?_, ?_⟩
  · exact (c7_permission_checker c7Env "op" true
      (fun _ _ _ _ => .ok (.str "done"))
      ⟨[("Authorization", "Bearer jwtx")], [("path", .str "/p")]⟩
      (.str "u@x") (.str "/p") (.obj []) .null
      (fun _ _ _ _ => .error (.nameError "x")) (fun _ _ => .ok .null)
      (.nameError "x") [] false false []).1 rfl
      "jwtx" c7Claims c7Data (.str "done") rfl rfl rfl rfl rfl rfl rfl
  · exact (c7_permission_checker c7Env "op" true
      (fun _ _ _ _ => .ok (.str "done"))
      ⟨[("Authorization", "Bearer jwtx")], [("path", .str "/p")]⟩
      (.str "u@x") (.str "/p") (.obj []) .null
      (fun _ _ _ _ => .error (.nameError "checker")) (fun _ _ => .ok .null)
      (.nameError "checker") [("path", .str "/p")] false true
      [("validators", .obj [("/p", .obj [("op", .obj [])])])]).2.1
      (.inl ⟨"checker", rfl⟩) (fun n d => rfl)
  · exact (c7_permission_checker c7Env "op" true
      (fun _ _ _ _ => .ok (.str "done"))
      ⟨[("Authorization", "Bearer jwtx")], [("path", .str "/p")]⟩
      (.str "u@x") (.str "/p") (.obj []) (.bool false)
      (fun _ _ _ _ => .ok (fun _ _ => .ok (.bool false)))
      (fun _ _ => .ok (.bool false)) (.nameError "x")
      [("path", .str "/p")] false true
      [("validators", .obj [("/p", .obj [("op", .obj [])])])]).2.2.2
      rfl rfl rfl rfl

/-- A pipeline environment whose json parser rejects its input, used by the
C5 counterexample. -/
def c5Env : Env :=
  { jwt := c6EnvNoDefault, api := c3EnvEmpty,
    jsonParse := fun _ => none, schemaCheck := fun _ _ => .pass,
    rules := none, checker := none }

/-- C5 counterexample: with body validation NOT requested
(validate_body = false) and an unparseable body, _parse_and_validate still
parses the body and raises BadRequest 400 — refuting the claim that the body
is parsed as JSON only when body validation is requested. -/
theorem c5_counterexample :
    parse_and_validate c5Env (.str "u@x")
      [("path", .str "/p"), ("body", .str "not json")] "op" false [] false
      none = .error (.http 400 "Unable to parse JSON body.") := by
  rfl

/-- C5 amended: the pipeline locates the route path by trying, in order,
path, rawPath, requestContext.http.path and requestContext.path (first
present key wins); the body is parsed as JSON whenever a truthy body is
present, regardless of whether body validation is requested, and a parse
failure raises BadRequest 400 in every case; an absent or falsy body yields
the empty dict. -/
theorem c5_path_and_body (env : Env) (u : JValue) (flds : PyDict)
    (op : String) (a : Bool) (rules : PyDict) (ck : Option PermChecker)
    (rc ho : PyDict) (s : String) (nm v : JValue) :
    (hasKey flds "path" = true → resolveName flds = .ok (pyGet flds "path"))
    ∧ (hasKey flds "path" = false → hasKey flds "rawPath" = true →
        resolveName flds = .ok (pyGet flds "rawPath"))
    ∧ (hasKey flds "path" = false → hasKey flds "rawPath" = false →
        dictGet flds "requestContext" = some (.obj rc) →
        hasKey rc "http" = true → dictGet rc "http" = some (.obj ho) →
        resolveName flds = .ok (pyGet ho "path"))
    ∧ (hasKey flds "path" = false → hasKey flds "rawPath" = false →
        dictGet flds "requestContext" = some (.obj rc) →
        hasKey rc "http" = false → hasKey rc "path" = true →
        resolveName flds = .ok (pyGet rc "path"))
    ∧ (∀ vb, resolveName flds = .ok nm →
        pyGet flds "body" = .str s → s ≠ "" → env.jsonParse s = none →
        parse_and_validate env u flds op a rules vb ck =
          .error (.http 400 "Unable to parse JSON body."))
    ∧ (pyGet flds "body" = .str s → env.jsonParse s = some v →
        bodyParse env flds = .ok v ∨ s = "")
    ∧ (pyTruthy (pyGet flds "body") = false →
        bodyParse env flds = .ok (.obj [])) := by
  refine ⟨?_, ?_, ?_, ?_, ?_, ?_, ?_⟩
  · intro h
    simp [resolveName, h]
  · intro h1 h2
    simp [resolveName, h1, h2]
  · intro h1 h2 hrc hh hv
    simp only [resolveName, h1, h2, hrc, Bool.false_eq_true, if_false]
    simp [pyContainsStr, hh, pyIndexV, pyIndex, hv]
  · intro h1 h2 hrc hh hp
    simp only [resolveName, h1, h2, hrc, Bool.false_eq_true, if_false]
    simp [pyContainsStr, hh, hp]
  · intro vb hr hb hs hj
    unfold parse_and_validate
    rw [hr]
    have : bodyParse env flds = .error (.http 400 "Unable to parse JSON body.") := by
      unfold bodyParse
      rw [hb]
      simp [pyTruthy, hs, hj]
    rw [this]
  · intro hb hj
    by_cases hs : s = ""
    · exact .inr hs
    · refine .inl ?_
      unfold bodyParse
      rw [hb]
      simp [pyTruthy, hs, hj]
  · intro h
    unfold bodyParse
    simp [h]

/-- C5 witness: the amended statement applied at concrete events — a rawPath
event, a requestContext.http.path event, a parse failure with
validate_body = true, and a missing body. -/
theorem c5_path_and_body_witness :
    resolveName [("rawPath", .str "/r")] = .ok (.str "/r") ∧
    resolveName [("requestContext", .obj [("http", .obj [("path", .str "/h")])])] =
      .ok (.str "/h") ∧
    parse_and_validate c5Env (.str "u@x")
      [("path", .str "/p"), ("body", .str "not json")] "op" false [] true
      none = .error (.http 400 "Unable to parse JSON body.") ∧
    bodyParse c5Env [("path", .str "/p")] = .ok (.obj []) := by
  refine ⟨?_, ?_, ?_, ?_⟩
  · exact (c5_path_and_body c5Env .null [("rawPath", .str "/r")] "op" false []
      none [] [] "" .null .null).2.1 rfl rfl
  · exact (c5_path_and_body c5Env .null
      [("requestContext", .obj [("http", .obj [("path", .str "/h")])])] "op"
      false [] none [("http", .obj [("path", .str "/h")])]
      [("path", .str "/h")] "" .null .null).2.2.1 rfl rfl rfl rfl rfl
  · exact (c5_path_and_body c5Env (.str "u@x")
      [("path", .str "/p"), ("body", .str "not json")] "op" false [] none
      [] [] "not json" (.str "/p") .null).2.2.2.2.1 true rfl rfl
      (by decide) rfl
  · exact (c5_path_and_body c5Env .null [("path", .str "/p")] "op" false []
      none [] [] "" .null .null).2.2.2.2.2.2 rfl

/-- C10: when the matched schema is non-empty, _validate_data validates only
the data member of the body, handing data["data"] to jsonschema; a parsed
body without a data key therefore raises an untyped KeyError before
jsonschema runs, and the validated wrapper re-raises that KeyError instead
of producing a BadRequest envelope. -/
theorem c10_validate_data_member (env : Env) (op : String) (a : Bool)
    (rules vo ro dobj : PyDict) (n : String) (schema : JValue)
    (f : Handler) (event : Event) :
    (∀ dv, pyGetD rules (if a then "api_validators" else "validators") .null =
        .obj vo →
      pyTruthy (.obj vo) = true →
      dictGet vo n = some (.obj ro) → dictGet ro op = some schema →
      isEmptyDict schema = false → dictGet dobj "data" = some dv →
      validate_data env.schemaCheck (.str n) op (.obj dobj) a rules =
        (match env.schemaCheck dv schema with
         | .pass => .ok ()
         | .invalid m => .error (.validation ("Invalid data: " ++ m))
         | .schemaErr m => .error (.validation ("Invalid schema: " ++ m))))
    ∧ (pyGetD rules (if a then "api_validators" else "validators") .null =
        .obj vo →
      pyTruthy (.obj vo) = true →
      dictGet vo n = some (.obj ro) → dictGet ro op = some schema →
      isEmptyDict schema = false → dictGet dobj "data" = none →
      validate_data env.schemaCheck (.str n) op (.obj dobj) a rules =
        .error (.keyError "data"))
    ∧ (∀ token claims user,
      parse_token event.headers = .ok token →
      (if strTake token 4 == "amp-" then (api_claims env.api token).result
       else get_claims env.jwt (some token)) = .ok claims →
      dictGet claims "username" = some user → isNull user = false →
      env.rules = some rules →
      resolveName event.fields = .ok (.str n) →
      bodyParse env event.fields = .ok (.obj dobj) →
      pyTruthy (JValue.str n) = true →
      pyGetD rules (if (strTake token 4 == "amp-") then "api_validators"
        else "validators") .null = .obj vo →
      pyTruthy (.obj vo) = true →
      dictGet vo n = some (.obj ro) → dictGet ro op = some schema →
      isEmptyDict schema = false → dictGet dobj "data" = none →
      validatedWrapper env op true f event = .error (.keyError "data")) := by
  have hvd : ∀ (a2 : Bool) (dres : Except Exc JValue),
      pyGetD rules (if a2 then "api_validators" else "validators") .null =
        .obj vo →
      pyTruthy (.obj vo) = true →
      dictGet vo n = some (.obj ro) → dictGet ro op = some schema →
      isEmptyDict schema = false → pyIndex dobj "data" = dres →
      validate_data env.schemaCheck (.str n) op (.obj dobj) a2 rules =
        (match dres with
         | .error e => .error e
         | .ok dv =>
           match env.schemaCheck dv schema with
           | .pass => .ok ()
           | .invalid m => .error (.validation ("Invalid data: " ++ m))
           | .schemaErr m => .error (.validation ("Invalid schema: " ++ m))) := by
    intro a2 dres hv ht hn hop hne hd
    unfold validate_data
    simp only [hv, ht, Bool.not_true, Bool.false_eq_true, if_false, hn, hop,
      hne, pyIndexV, hd]
  refine ⟨?_, ?_, ?_⟩
  · intro dv hv ht hn hop hne hd
    rw [hvd a (.ok dv) hv ht hn hop hne (by simp [pyIndex, hd])]
  · intro hv ht hn hop hne hd
    rw [hvd a (.error (.keyError "data")) hv ht hn hop hne
      (by simp [pyIndex, hd])]
  · intro token claims user hparse hclaims husr hnn hrules hr hb hnt hv ht hn
      hop hne hd
    have hpav : parse_and_validate env user event.fields op
        (strTake token 4 == "amp-")
        (match env.rules with | some r2 => r2 | none => []) true env.checker =
        .error (.keyError "data") := by
      unfold parse_and_validate
      rw [hr, hb]
      simp only [hnt, Bool.not_true, Bool.false_eq_true, if_false]
      have : validationStage env (.str n) op (.obj dobj)
          (strTake token 4 == "amp-")
          (match env.rules with | some r2 => r2 | none => []) true =
          .error (.keyError "data") := by
        unfold validationStage
        rw [hrules]
        simp only [if_true]
        rw [hvd (strTake token 4 == "amp-") (.error (.keyError "data")) hv ht
          hn hop hne (by simp [pyIndex, hd])]
      rw [this]
    unfold validatedWrapper pipelineTry
    rw [hparse]
    simp only []
    rw [hclaims]
    simp only [pyIndex, husr, hnn, Bool.false_eq_true, if_false]
    rw [hpav]

/-- The pipeline environment of the C10 witness: a non-empty schema for the
validated route and a body parser returning an object with no data key. -/
def c10Env : Env :=
  { jwt := c6EnvNoDefault, api := c3EnvEmpty,
    jsonParse := fun _ => some (.obj [("x", .num 1)]),
    schemaCheck := fun _ _ => .pass,
    rules := some [("validators", .obj
      [("/p", .obj [("op", .obj [("type", .str "object")])])])],
    checker := none }

/-- C10 witness: at a concrete event whose body parses to an object without
a data key and whose matched schema is non-empty, the wrapper propagates the
KeyError instead of returning an envelope. -/
theorem c10_validate_data_witness :
    validatedWrapper c10Env "op" true (fun _ _ _ _ => .ok .null)
      ⟨[("Authorization", "Bearer jwtx")],
       [("path", .str "/p"), ("body", .str "\x7b\"x\": 1\x7d")]⟩ =
      .error (.keyError "data") := by
  exact (c10_validate_data_member c10Env "op" false
    [("validators", .obj [("/p", .obj [("op", .obj [("type", .str "object")])])])]
    [("/p", .obj [("op", .obj [("type", .str "object")])])]
    [("op", .obj [("type", .str "object")])] [("x", .num 1)] "/p"
    (.obj [("type", .str "object")]) (fun _ _ _ _ => .ok .null)
    ⟨[("Authorization", "Bearer jwtx")],
     [("path", .str "/p"), ("body", .str "\x7b\"x\": 1\x7d")]⟩).2.2
    "jwtx" c7Claims (.str "u@x") rfl rfl rfl rfl rfl rfl rfl rfl rfl rfl rfl
    rfl rfl rfl

/-- The pipeline environment of the C1 counterexample: JWKS fetch and header
parsing succeed, the key matches, and jose.jwt.decode reports an expired
signature. -/
def c1JwtEnv : JwtEnv :=
  { issuerUrl := "https://i", jwksOk := true, jwksStatus := 200,
    jwksJson := some (.obj [("keys", .arr [.obj [("kid", .str "k1")]])]),
    headerRes := .ok (.obj [("kid", .str "k1")]),
    decodeRes := .expired, accountItem := none, idpPref := "" }

/-- The full C1 counterexample environment built on c1JwtEnv. -/
def c1Env : Env :=
  { jwt := c1JwtEnv, api := c3EnvEmpty, jsonParse := fun _ => none,
    schemaCheck := fun _ _ => .pass, rules := none, checker := none }

/-- C1 counterexample: an event with a syntactically valid but expired JWT
does NOT produce a 401 envelope — the ClaimException is not an
HTTPException, so the wrapper re-raises it and the call errors out with
ClaimException("JWT token has expired") instead of returning
\x7bstatusCode: 401, ...\x7d. -/
theorem c1_counterexample :
    validatedWrapper c1Env "op" true (fun _ _ _ _ => .ok .null)
      ⟨[("Authorization", "Bearer ey.fake.jwt")], [("path", .str "/p")]⟩ =
      .error (.claim "JWT token has expired") := by
  rfl

/-- C1 amended: only HTTPException-typed failures raised inside the try
block produce the error envelope, with statusCode the failure code and body
the json error string; every other exception — ClaimException (such as the
expired-JWT case), LookupError, PermissionError, UnknownApiUserException —
propagates out of the wrapper uncaught. -/
theorem c1_wrapper_envelope (env : Env) (op : String) (validateBody : Bool)
    (f : Handler) (event : Event) (e : Exc) :
    (∀ code msg, pipelineTry env op validateBody f event =
        .error (.http code msg) →
      validatedWrapper env op validateBody f event =
        .ok ⟨code, errorBody code msg⟩)
    ∧ (pipelineTry env op validateBody f event = .error e →
        (∀ code msg, e ≠ .http code msg) →
        validatedWrapper env op validateBody f event = .error e)
    ∧ (∀ token, parse_token event.headers = .ok token →
        (strTake token 4 == "amp-") = false →
        env.jwt.jwksOk = true →
        (∃ jo, env.jwt.jwksJson = some (.obj jo)) →
        (∃ ho, env.jwt.headerRes = .ok (.obj ho)) →
        env.jwt.decodeRes = .expired →
        (∀ jo ho keys, env.jwt.jwksJson = some (.obj jo) →
          env.jwt.headerRes = .ok (.obj ho) →
          pyGetD jo "keys" (.arr []) = .arr keys →
          ∃ rk, findRsaKey keys (pyGet ho "kid") = .ok (some rk) ∧
            pyTruthy rk = true) →
        (∀ jo, env.jwt.jwksJson = some (.obj jo) →
          ∃ keys, pyGetD jo "keys" (.arr []) = .arr keys) →
        validatedWrapper env op validateBody f event =
          .error (.claim "JWT token has expired")) := by
  refine ⟨?_, ?_, ?_⟩
  · intro code msg h
    unfold validatedWrapper
    rw [h]
  · intro h hne
    unfold validatedWrapper
    rw [h]
    cases e with
    | http code msg => exact absurd rfl (hne code msg)
    | claim m => rfl
    | lookup m => rfl
    | permission m => rfl
    | unknownApiUser m => rfl
    | validation m => rfl
    | keyError k => rfl
    | typeError m => rfl
    | valueError m => rfl
    | nameError m => rfl
    | attributeError m => rfl
  · intro token hparse hnapi hjok ⟨jo, hjson⟩ ⟨ho, hheader⟩ hdec hrsa hkeys
    obtain ⟨keys, hk⟩ := hkeys jo hjson
    obtain ⟨rk, hfind, hrkt⟩ := hrsa jo ho keys hjson hheader hk
    have hclaims : get_claims env.jwt (some token) =
        .error (.claim "JWT token has expired") := by
      simp only [get_claims, hjok, hjson, hheader, hk, hfind, hrkt, hdec,
        Bool.not_true]
      rfl
    unfold validatedWrapper pipelineTry
    rw [hparse]
    simp only [hnapi, Bool.false_eq_true, if_false]
    rw [hclaims]

/-- C1 witness for the amended statement: the envelope arm applied at a
missing-token event, and the expired-JWT arm applied at c1Env. -/
theorem c1_wrapper_envelope_witness :
    validatedWrapper c1Env "op" true (fun _ _ _ _ => .ok .null)
      ⟨[], [("path", .str "/p")]⟩ = .ok ⟨401, errorBody 401 "No Access Token Found"⟩ ∧
    validatedWrapper c1Env "op" true (fun _ _ _ _ => .ok .null)
      ⟨[("Authorization", "Bearer ey2.fake.jwt")], [("path", .str "/p")]⟩ =
      .error (.claim "JWT token has expired") := by
  constructor
  · exact (c1_wrapper_envelope c1Env "op" true (fun _ _ _ _ => .ok .null)
      ⟨[], [("path", .str "/p")]⟩ (.http 401 "No Access Token Found")).1
      401 "No Access Token Found" rfl
  · exact (c1_wrapper_envelope c1Env "op" true (fun _ _ _ _ => .ok .null)
      ⟨[("Authorization", "Bearer ey2.fake.jwt")], [("path", .str "/p")]⟩
      (.claim "x")).2.2 "ey2.fake.jwt" rfl rfl rfl
      ⟨[("keys", .arr [.obj [("kid", .str "k1")]])], rfl⟩
      ⟨[("kid", .str "k1")], rfl⟩ rfl
      (by
        intro jo ho keys hj hh hk
        cases hj
        cases hh
        cases hk
        exact ⟨.obj [("kid", .str "k1")], rfl, rfl⟩)
      (by
        intro jo hj
        cases hj
        exact ⟨[.obj [("kid", .str "k1")]], rfl⟩)

/-- C9 witness: the characterization applied at the key amp-test, at a fresh
token, at a numeric argument and at a bad key. -/
theorem c9_tokenv1_witness :
    (TokenV1.make (.str "amp-test") "r" =
      .ok ⟨"amp-test", shake256hexdigest64 (utf8Bytes "amp-test"), ""⟩) ∧
    (∀ t, TokenV1.make (.str "") "r" = .ok t → t.validate t.rawKey = true) ∧
    TokenV1.make (.num 3) "r" = .error (.typeError "Key must be a string.") ∧
    TokenV1.make (.str "other") "r" =
      .error (.valueError "TokenV1 key must start with \x27amp-\x27.") := by
  refine ⟨?_, ?_, ?_, ?_⟩
  · exact (c9_tokenv1_characterization "amp-test" "r" .null).1 (by decide)
  · exact (c9_tokenv1_characterization "" "r" .null).2.2.1
  · exact (c9_tokenv1_characterization "" "r" (.num 3)).2.2.2.1 nofun
  · exact (c9_tokenv1_characterization "other" "r" .null).2.2.2.2
      (by decide) (by decide)

end Authz
